import Mathlib

/-!
Verification of the `bluesteel-graphics` chart-drawing package.

Shallow embedding of `bluesteel/graphics/graphics.py`,
`bluesteel/graphics/specific_formatting.py`, `bluesteel/graphics/__main__.py`
and `bluesteel/graphics/__init__.py`.

Modelling conventions:
* Python floats are modelled as rationals (`ℚ`); the numeric code performs no
  operation for which the float/rational distinction is observable at the
  precision the theorems use.
* A pandas `DataFrame` is an index column plus named value columns.
* The matplotlib `Axes`/`Figure` objects are records holding exactly the
  state the source reads and writes (limits, ticks, tick labels, plotted
  artists, annotation texts, spine visibility, warnings printed).
* matplotlib's autoscale results (`ax.get_xlim()` etc. before the code
  overrides them) are inputs, supplied in a `PlotEnv` record: they are
  computed by the external rendering library, which the repository treats as
  a collaborator.  The source samples them after all artists are drawn, so a
  single sampled value per axis suffices.
* Fallible Python code (dict/`Index` lookups that raise `KeyError`,
  `list[...]` indexing that raises `IndexError`, `max()` of an empty
  sequence, an unsupported chart kind) is modelled with `Except String`.
-/

namespace Bluesteel

/-! ## Python-style helpers -/

/-- `xs[i]` for a Python list: negative indices count from the end;
an out-of-range index raises `IndexError`. -/
def pyGet {α : Type} (xs : List α) (i : Int) : Except String α :=
  let j : Int := if i < 0 then i + xs.length else i
  if h : 0 ≤ j ∧ j.toNat < xs.length then
    .ok (xs.get ⟨j.toNat, h.2⟩)
  else
    .error "IndexError: list index out of range"

/-- `xs[0]`, raising `IndexError` on an empty list. -/
def headE {α : Type} (xs : List α) : Except String α :=
  match xs with
  | [] => .error "IndexError: list index out of range"
  | x :: _ => .ok x

/-- The last element, `xs[-1]`, raising `IndexError` on an empty list. -/
def lastE {α : Type} (xs : List α) : Except String α :=
  match xs with
  | [] => .error "IndexError: list index out of range"
  | [x] => .ok x
  | _ :: y :: ys => lastE (y :: ys)

/-- Total maximum of a rational list (`0` on the empty list); the fallible
  wrapper below is the faithful model of `max()` / `ndarray.max()`. -/
def listMaxD (xs : List ℚ) : ℚ :=
  match xs with
  | [] => 0
  | x :: ys => ys.foldl max x

/-- Total minimum of a rational list (`0` on the empty list). -/
def listMinD (xs : List ℚ) : ℚ :=
  match xs with
  | [] => 0
  | x :: ys => ys.foldl min x

/-- Python `max(xs)` / numpy `xs.max()`: fails on an empty sequence. -/
def maxE (xs : List ℚ) : Except String ℚ :=
  match xs with
  | [] => .error "ValueError: max() arg is an empty sequence"
  | _ => .ok (listMaxD xs)

/-- Python `min(xs)` / numpy `xs.min()`: fails on an empty sequence. -/
def minE (xs : List ℚ) : Except String ℚ :=
  match xs with
  | [] => .error "ValueError: min() arg is an empty sequence"
  | _ => .ok (listMinD xs)

/-- Truthiness of a Python numeric keyword argument: both an absent value
(`None`) and the number `0` are falsy.  This is the semantics of the
`if not xmin:` guards in the drawing functions. -/
def falsyNum (x : Option ℚ) : Bool :=
  match x with
  | none => true
  | some q => q == 0

/-- Truthiness of an optional Python list: absent and empty are falsy. -/
def falsyList {α : Type} (x : Option (List α)) : Bool :=
  match x with
  | none => true
  | some l => l.isEmpty

/-- Truthiness of an optional Python string: absent and `""` are falsy. -/
def falsyStr (x : Option String) : Bool :=
  match x with
  | none => true
  | some s => s == ""

/-- Python `int(x)` on a float: truncation toward zero. -/
def ratTrunc (q : ℚ) : Int :=
  if 0 ≤ q then ⌊q⌋ else -⌊-q⌋

/-- Python `x % m` for floats: the remainder has the divisor's sign
(floor-division based).  Only used with positive divisors here. -/
def pyMod (q m : ℚ) : ℚ := q - m * ⌊q / m⌋

/-- Round half to even (Python's rounding for `format(x, '.0f')` etc.). -/
def roundHalfEven (q : ℚ) : Int :=
  let f : Int := ⌊q⌋
  let r : ℚ := q - f
  if r < 1/2 then f
  else if 1/2 < r then f + 1
  else if f % 2 = 0 then f else f + 1

/-- Insert thousands separators into a reversed digit string. -/
def commaChunks : List Char → List Char
  | a :: b :: c :: d :: rest => a :: b :: c :: ',' :: commaChunks (d :: rest)
  | l => l

/-- A natural number with thousands separators, e.g. `1234567 ↦ "1,234,567"`. -/
def commaNat (n : Nat) : String :=
  String.mk ((commaChunks (toString n).data.reverse).reverse)

/-- Python `'{:,.0f}'.format(x)`: round half to even to an integer, insert
thousands separators.  A negative value that rounds to zero keeps its sign
(`format(-0.2, ',.0f') = '-0'`). -/
def fmtComma0 (q : ℚ) : String :=
  let r : Int := roundHalfEven q
  let s : String := commaNat r.natAbs
  if q < 0 then "-" ++ s else s

/-- Decimal digits (without leading `"0."`) of a fraction `0 ≤ r < 1`,
with bounded fuel; models the terminating-decimal output of Python float
`repr` for the dyadic/decimal values the code produces. -/
def fracDigits (r : ℚ) (fuel : Nat) : String :=
  match fuel with
  | 0 => ""
  | fuel + 1 =>
    if r == 0 then ""
    else
      let d : Int := ⌊r * 10⌋
      toString d ++ fracDigits (r * 10 - d) fuel

/-- Python `f"{x:,}"` on a float: thousands separators in the integer part,
then the fractional digits; an integral float prints a trailing `".0"`. -/
def fmtCommaFloat (q : ℚ) : String :=
  let a : ℚ := |q|
  let ip : Nat := (⌊a⌋).natAbs
  let frac : ℚ := a - ⌊a⌋
  let body : String :=
    commaNat ip ++ "." ++ (if frac == 0 then "0" else fracDigits frac 30)
  if q < 0 then "-" ++ body else body

/-- Python `'{:.2%}'.format(x)`: multiply by 100, two decimals (half-even),
then a percent sign. -/
def fmtPct2 (q : ℚ) : String :=
  let n : Int := roundHalfEven (q * 10000)
  let a : Nat := n.natAbs
  let frac : Nat := a % 100
  let main : String :=
    toString (a / 100) ++ "." ++
      (if frac < 10 then "0" ++ toString frac else toString frac) ++ "%"
  if n < 0 ∨ (n = 0 ∧ q < 0) then "-" ++ main else main

/-- Python `'{:.0%}'.format(x)`: percentage with no decimals. -/
def fmtPct0 (q : ℚ) : String :=
  let n : Int := roundHalfEven (q * 100)
  let main : String := toString n.natAbs ++ "%"
  if n < 0 ∨ (n = 0 ∧ q < 0) then "-" ++ main else main

/-- Stringification of an index value, as matplotlib renders a tick label
for it.  Integer-typed CSV indexes (`int64`) print without a decimal point. -/
def ratStr (q : ℚ) : String :=
  if q.den = 1 then toString q.num
  else (if q < 0 then "-" else "") ++
    toString (⌊|q|⌋) ++ "." ++ fracDigits (|q| - ⌊|q|⌋) 30

/-- `re.sub(r'(\d{4})-(\d{4})', '\\1\N{EN DASH}\\2', s)` on a character
list: leftmost non-overlapping 4-digit`-`4-digit matches get an en dash. -/
def enDashChars : List Char → List Char
  | a :: b :: c :: d :: '-' :: e :: f :: g :: h :: rest =>
    if (a.isDigit && b.isDigit && c.isDigit && d.isDigit &&
        e.isDigit && f.isDigit && g.isDigit && h.isDigit) then
      a :: b :: c :: d :: '–' :: e :: f :: g :: h :: enDashChars rest
    else
      a :: enDashChars (b :: c :: d :: '-' :: e :: f :: g :: h :: rest)
  | c :: rest => c :: enDashChars rest
  | [] => []

/-- `s.replace('\\n', '\n')`: literal backslash-n becomes a newline. -/
def newlineChars : List Char → List Char
  | '\\' :: 'n' :: rest => '\n' :: newlineChars rest
  | c :: rest => c :: newlineChars rest
  | [] => []

/-- Title/source post-processing: en-dash substitution in year ranges
followed by newline unescaping, as in `format_figure`. -/
def titleText (s : String) : String :=
  String.mk (newlineChars (enDashChars s.data))

/-- Pointwise sum of two aligned numeric columns. -/
def zipAdd (xs ys : List ℚ) : List ℚ := List.zipWith (· + ·) xs ys

/-! ## Data model -/

/-- A pandas `DataFrame` as the package uses it: a (possibly named) numeric
index and a list of named, index-aligned numeric columns. -/
structure DataFrame where
  indexName : Option String
  index : List ℚ
  cols : List (String × List ℚ)
  deriving Repr, DecidableEq

/-- `len(data.columns)`. -/
def DataFrame.ncols (d : DataFrame) : Nat := d.cols.length

/-- `data.cumsum(axis=1)` restricted to the value columns: column `j`
becomes the pointwise sum of columns `0..j`. -/
def cumsumCols (cols : List (List ℚ)) (n : Nat) : List (List ℚ) :=
  (cols.scanl zipAdd (List.replicate n 0)).drop 1

/-- `<cols>.shift(1, axis=1).fillna(0)`: shift columns right by one and
fill the first column with zeros (the column count is unchanged, so an
empty frame stays empty). -/
def shiftFill0 (cols : List (List ℚ)) (n : Nat) : List (List ℚ) :=
  match cols with
  | [] => []
  | _ => List.replicate n 0 :: cols.dropLast

/-- `data.cumsum(axis=1).shift(1, axis=1).fillna(0)` — the per-column bar
bottoms of the stacked bar charts. -/
def stackBottoms (d : DataFrame) : List (List ℚ) :=
  shiftFill0 (cumsumCols (d.cols.map Prod.snd) d.index.length) d.index.length

/-- The cumulative sums `data.cumsum(axis='columns')` of the stacked-area
chart, as a list of rows aligned with the index: row `i` holds the running
sums of the column values at index position `i`. -/
def cumRow (cols : List (String × List ℚ)) (i : Nat) : List ℚ :=
  (cols.map (fun c => c.2.getD i 0)).scanl (· + ·) 0 |>.drop 1

/-- `stacked.xs(key)` on the cumulative sums: the row whose index value
equals `key`, or `none` (pandas raises `KeyError`). -/
def xsRow (d : DataFrame) (key : ℚ) : Option (List ℚ) :=
  match d.index.indexOf? key with
  | none => none
  | some i => some (cumRow d.cols i)

/-! ## Chart options and the plotting environment -/

/-- The keyword options threaded through `create_figure`, the drawers, the
figure formatter and the standalone formatting helpers.  `none` models an
absent keyword, mirroring each Python default.  `xlabel`/`ylabel` are
doubly optional because the horizontal-bar drawers insert
`data.index.name`, which may itself be `None`, into `kwargs` — presence
with value `None` and absence behave differently in `format_figure`. -/
structure Opts where
  title : Option String := none
  source : Option String := none
  xlabel : Option (Option String) := none
  ylabel : Option (Option String) := none
  xlabel_off : Bool := false
  ylabel_off : Bool := false
  spines : Bool := true
  grid : Bool := true
  label_thousands : Bool := true
  rot : Option ℚ := none
  ylim : Option (Option ℚ × Option ℚ) := none
  xlim : Option (Option ℚ × Option ℚ) := none
  xticks : Option (List String) := none
  yticks : Option (List ℚ) := none
  xmin : Option ℚ := none
  xmax : Option ℚ := none
  ymin : Option ℚ := none
  ymax : Option ℚ := none
  color : List Int := [0]
  lw : ℚ := 2
  label_lines : Bool := false
  label_area : Bool := false
  xtick_loc : Option (List ℚ) := none
  ytick_loc : Option (List ℚ) := none
  xticklabels : Option (List String) := none
  yticklabels : Option (List String) := none
  xyear : Bool := false
  yyear : Bool := false
  deriving Repr, DecidableEq

/-- All option defaults. -/
def plainOpts : Opts := {}

/-- The state the external plotting library supplies: autoscaled axis
limits and tick locations (sampled after the artists of the current chart
are drawn, which is when the source reads them), the style sheet's colour
cycle, and the figure/logo geometry used for the watermark. -/
structure PlotEnv where
  autoXlim : ℚ × ℚ
  autoYlim : ℚ × ℚ
  autoXticks : List ℚ
  autoYticks : List ℚ
  colors : List String
  figWidthInches : ℚ
  dpi : ℚ
  logoW : Nat
  logoH : Nat
  /-- `ax.get_position().x1`: the axes' right edge in figure coordinates,
  a layout value owned by the library. -/
  axPosX1 : ℚ
  deriving Repr, DecidableEq

/-! ## Figure state -/

/-- A font size: numeric points or a named matplotlib size. -/
inductive TextSize where
  | pt (q : ℚ)
  | named (s : String)
  deriving Repr, DecidableEq

/-- An `ax.text` annotation. -/
structure TextObj where
  x : ℚ
  y : ℚ
  text : String
  size : Option TextSize := none
  deriving Repr, DecidableEq

/-- One `ax.bar`/`ax.barh` call: positions along the category axis,
values, stack starts (`bottom`/`left`, zero when defaulted), bar
thickness, orientation, an optional colour and an optional legend label. -/
structure BarObj where
  pos : List ℚ
  vals : List ℚ
  start : List ℚ
  thickness : ℚ
  horizontal : Bool
  color : Option String := none
  label : Option String := none
  deriving Repr, DecidableEq

/-- One `ax.plot` call. -/
structure LineObj where
  xs : List ℚ
  ys : List ℚ
  lw : ℚ
  color : String
  deriving Repr, DecidableEq

/-- The mutable `Axes` state the source reads and writes.  Limits and
ticks are initialised from the library's autoscale results and overwritten
by the explicit setter calls the source makes. -/
structure Axes where
  xlim : ℚ × ℚ
  ylim : ℚ × ℚ
  xticks : List ℚ
  yticks : List ℚ
  xtlabels : List String
  ytlabels : List String
  /-- Visibility of the x tick labels (`Text.set_visible`). -/
  xtVisible : List Bool
  /-- Whether `ax.set_xticks` was called (ticks fixed, not auto-spaced). -/
  xticksUserSet : Bool
  yticksUserSet : Bool
  texts : List TextObj
  bars : List BarObj
  lines : List LineObj
  /-- `ax.stackplot` data: the shared x values and one y row per column. -/
  areas : List (List ℚ × List ℚ)
  /-- `ax.scatter` series. -/
  scatters : List (List ℚ × List ℚ)
  hlines : List ℚ
  vlines : List ℚ
  legend : Bool
  gridY : Bool
  spineLeft : Bool
  spineBottom : Bool
  ticksOff : Bool
  xlabel : String
  ylabel : String
  title : String
  rot : Option ℚ
  /-- `ax.get_position().x1`. -/
  posX1 : ℚ
  /-- Advisory messages `print`ed while building this chart. -/
  warns : List String
  deriving Repr, DecidableEq

/-- A freshly created `Axes` (`plt.subplots()`), carrying the library's
autoscale state for this chart; tick labels are empty strings until a
draw or an explicit `set_*ticklabels` call, which is exactly what the
`get_text() == ''` probes in the formatting code test for. -/
def axesInit (env : PlotEnv) : Axes where
  xlim := env.autoXlim
  ylim := env.autoYlim
  xticks := env.autoXticks
  yticks := env.autoYticks
  xtlabels := List.replicate env.autoXticks.length ""
  ytlabels := List.replicate env.autoYticks.length ""
  xtVisible := List.replicate env.autoXticks.length true
  xticksUserSet := false
  yticksUserSet := false
  texts := []
  bars := []
  lines := []
  areas := []
  scatters := []
  hlines := []
  vlines := []
  legend := false
  gridY := false
  spineLeft := true
  spineBottom := true
  ticksOff := false
  xlabel := ""
  ylabel := ""
  title := ""
  rot := none
  posX1 := env.axPosX1
  warns := []

/-- The figure: its axes plus figure-level annotations (the footer text,
the bottom margin adjustment, the stamped logo size). -/
structure Figure where
  ax : Axes
  figtexts : List (ℚ × ℚ × String)
  bottomAdjust : Option ℚ
  logo : Option (Nat × Nat)
  deriving Repr, DecidableEq

/-- `plt.subplots()`: a fresh figure around a fresh axes. -/
def figInit (env : PlotEnv) : Figure where
  ax := axesInit env
  figtexts := []
  bottomAdjust := none
  logo := none

/-- `ax.set_xticks`: fixes tick locations; the automatic tick labels
attached to the new ticks are empty until drawn. -/
def setXticks (a : Axes) (ts : List ℚ) : Axes :=
  { a with xticks := ts, xtlabels := List.replicate ts.length "",
           xtVisible := List.replicate ts.length true, xticksUserSet := true }

/-- `ax.set_yticks`. -/
def setYticks (a : Axes) (ts : List ℚ) : Axes :=
  { a with yticks := ts, ytlabels := List.replicate ts.length "",
           yticksUserSet := true }

/-- `ax.set_xticklabels`: fresh label `Text` objects, all visible. -/
def setXtickLabels (a : Axes) (ls : List String) : Axes :=
  { a with xtlabels := ls, xtVisible := List.replicate ls.length true }

/-- `ax.set_yticklabels`. -/
def setYtickLabels (a : Axes) (ls : List String) : Axes :=
  { a with ytlabels := ls }

/-! ## `format_figure` (graphics.py lines 340-471) -/

/-- Warning printed when too few x tick labels are supplied
(graphics.py lines 388-390, also specific_formatting.py lines 135-137). -/
def msgTooFewX : String :=
  "You have supplied too few x-axis labels. Please provide the correct number of labels. Input \" \" to the list add a blank label."

/-- Warning printed when too many x tick labels are supplied. -/
def msgTooManyX : String :=
  "You have supplied too many x-axis labels. Please provide the correct number of labels."

/-- Advisory suggesting a horizontal bar layout for long labels. -/
def msgUseHbar : String :=
  "You may want to consider using a horizontal_bar chart so that all of your x-axis labels are readable. Use the command --kind horizontal_bar"

/-- The footer rendered when no source string is supplied. -/
def defaultFooter : String := "Produced with Bluesteel Graphics™."

/-- The large-tick abbreviation shared by `format_figure` and the
`specific_formatting` helpers: every zero tick becomes an empty label;
other ticks are divided by 1000 and rendered with thousands separators —
as floats when any tick is not a multiple of 1000 (to keep precision),
as integers otherwise — then suffixed with `'K'` when `appendK`. -/
def bigTickLabels (ticks : List ℚ) (appendK : Bool) : List String :=
  let base : List String :=
    if ticks.any (fun i => !(pyMod i 1000 == 0)) then
      ticks.map (fun i => if i == 0 then "" else fmtCommaFloat (i / 1000))
    else
      ticks.map (fun i => if i == 0 then "" else fmtComma0 (i / 1000))
  if appendK then base.map (fun s => if s == "" then "" else s ++ "K") else base

/-- Line 367-369 of `format_figure`: `xlabel` defaults to the index name
unless the label is disabled or already supplied. -/
def ffXlabelKw (d : DataFrame) (o : Opts) : Opts :=
  if ¬o.xlabel_off ∧ o.xlabel = none then { o with xlabel := some d.indexName }
  else o

/-- Lines 371-373: `ylabel` defaults to the first column's name
(`data.columns[0]` raises on an empty frame). -/
def ffYlabelKw (d : DataFrame) (o : Opts) : Except String Opts :=
  if ¬o.ylabel_off ∧ o.ylabel = none then do
    let c ← headE d.cols
    pure { o with ylabel := some (some c.1) }
  else pure o

/-- Lines 375-376: `ylim` defaults to `[0, None]`. -/
def ffYlimKw (o : Opts) : Opts :=
  if o.ylim = none then { o with ylim := some (some 0, none) } else o

/-- Lines 378-379: `xlim` defaults to the index value range. -/
def ffXlimKw (d : DataFrame) (o : Opts) : Except String Opts :=
  if o.xlim = none then do
    let mn ← minE d.index
    let mx ← maxE d.index
    pure { o with xlim := some (some mn, some mx) }
  else pure o

/-- Keyword defaulting at the top of `format_figure` (lines 367-379). -/
def ffKwargs (d : DataFrame) (o : Opts) : Except String Opts := do
  let o := ffXlabelKw d o
  let o ← ffYlabelKw d o
  let o := ffYlimKw o
  ffXlimKw d o

/-- The advisory printed for a supplied x-tick-label list: the count is
compared with `len(data.index)`. -/
def xtickWarns (d : DataFrame) (ls : List String) : List String :=
  if ls.length < d.index.length then [msgTooFewX]
  else if d.index.length < ls.length then [msgTooManyX]
  else []

/-- The `'xticks'` keyword of `format_figure` (lines 386-394): user
supplied x tick *labels*; a count different from `len(data.index)` prints
an advisory; the labels are applied verbatim either way. -/
def applyXtickLabelsKw (d : DataFrame) (a : Axes) (o : Opts) : Axes :=
  match o.xticks with
  | none => a
  | some ls =>
    setXtickLabels { a with warns := a.warns ++ xtickWarns d ls } ls

/-- The y-tick relabelling block of `format_figure` (lines 396-417),
entered only when the first existing y tick label is empty: ticks whose
maximum is at least 1,000,000 go through `bigTickLabels` (`'K'` suffix
controlled by `label_thousands`); otherwise every tick is formatted
`'{:,.0f}'`. -/
def relabelY (a : Axes) (label_thousands : Bool) : Except String Axes := do
  let first ← headE a.ytlabels
  if first.length = 0 then do
    let m ← maxE a.yticks
    let newLabels :=
      if (1000000 : ℚ) ≤ m then bigTickLabels a.yticks label_thousands
      else a.yticks.map fmtComma0
    pure (setYtickLabels a newLabels)
  else
    pure a

/-- `ax.set(**kwargs)` at line 431, after `yticks`/`xticks` were popped:
applies `xlabel`, `ylabel`, `xlim`, `ylim`, skipping `None` values; a
`None` inside a limit pair keeps the current boundary.  The four
assignments touch disjoint `Axes` fields, so the dict iteration is one
simultaneous record update. -/
def applySetKw (a : Axes) (o : Opts) : Axes :=
  { a with
    xlabel := match o.xlabel with
      | some (some s) => s
      | _ => a.xlabel,
    ylabel := match o.ylabel with
      | some (some s) => s
      | _ => a.ylabel,
    ylim := match o.ylim with
      | some p => (p.1.getD a.ylim.1, p.2.getD a.ylim.2)
      | none => a.ylim,
    xlim := match o.xlim with
      | some p => (p.1.getD a.xlim.1, p.2.getD a.xlim.2)
      | none => a.xlim }

/-- The logo stamp (lines 461-469): the logo is resized to a third of the
figure's pixel width, preserving aspect ratio, with `int` truncation. -/
def logoSize (env : PlotEnv) : Nat × Nat :=
  let figwidth : ℚ := env.figWidthInches * env.dpi
  let w : Int := ratTrunc (figwidth / 3)
  (w.toNat, (ratTrunc ((w : ℚ) * env.logoH / env.logoW)).toNat)

/-- The `'yticks'` keyword of `format_figure` (lines 381-382):
`ax.set_yticks([int(label) for label in kwargs.pop('yticks')])`. -/
def applyYticksKw (a : Axes) (o : Opts) : Axes :=
  match o.yticks with
  | none => a
  | some ls => setYticks a (ls.map (fun q => ((ratTrunc q : Int) : ℚ)))

/-- The infallible tail of `format_figure` (lines 419-471): tick marks
off, optional y grid, `ax.set(**kwargs)`, rotation, title, spines, the
footer text and the logo stamp.  The conditional updates touch disjoint
fields and are written inside one record update per stage. -/
def ffFinish (env : PlotEnv) (fig : Figure) (o : Opts) (a : Axes) : Figure :=
  let a := { a with
    ticksOff := true,
    gridY := if o.grid then true else a.gridY }
  let a := applySetKw a o
  let a := { a with
    rot := if falsyNum o.rot then a.rot else o.rot,
    title := if falsyStr o.title then a.title else titleText (o.title.getD ""),
    spineLeft := if o.spines then a.spineLeft else false,
    spineBottom := if o.spines then a.spineBottom else false }
  let footer : String :=
    if falsyStr o.source then defaultFooter else titleText (o.source.getD "")
  { fig with
    ax := a,
    figtexts := fig.figtexts ++ [(a.posX1, 0, footer)],
    bottomAdjust := some (17/100),
    logo := some (logoSize env) }

/-- `format_figure(data, fig, spines=True, grid=True, label_thousands=True,
xlabel_off=False, ylabel_off=False, rot=None, title=False, source=None,
**kwargs)` — the common formatting pass of graphics.py, in source order:
keyword defaulting, the `yticks`/`xticks` keywords, the y-tick
relabelling, then the cosmetic tail.  The `PlotEnv` argument stands for
the module globals the source closes over (the logo image and the style's
figure geometry).  The cosmetic `tick_params(axis='y', pad=10)` padding
call is not modelled. -/
def format_figure (env : PlotEnv) (d : DataFrame) (fig : Figure) (o : Opts) :
    Except String Figure := do
  let o ← ffKwargs d o
  let a := applyYticksKw fig.ax o
  let a := applyXtickLabelsKw d a o
  let a ← relabelY a o.label_thousands
  pure (ffFinish env fig o a)

/-! ## Drawing helpers (graphics.py lines 474-512) -/

/-- `fix_xticks_for_short_series`: with fewer than six index points,
every index value receives an explicit tick. -/
def fix_xticks_for_short_series (d : DataFrame) (a : Axes) : Axes :=
  if d.index.length < 6 then setXticks a d.index else a

/-- The advisory loop of `fix_xaxis_vertical_bar` (lines 500-511): the
running total of label lengths includes the current label, and the
message is printed for every offending label (the loop has no `break`). -/
def hbarAdvGo (n : Nat) : List String → Nat → List String
  | [], _ => []
  | l :: rest, total =>
    let t := total + l.length
    (if 9 < l.length ∨ 49 < t ∨ (6 < l.length ∧ 7 < n) then [msgUseHbar] else [])
      ++ hbarAdvGo n rest t

/-- `fix_xaxis_vertical_bar`: if the first x tick label is a 4-digit year,
charts with more than 12 ticks hide every other label; otherwise long
labels trigger the horizontal-bar advisory. -/
def fix_xaxis_vertical_bar (d : DataFrame) (a : Axes) : Except String Axes := do
  let first ← headE a.xtlabels
  if first.length = 4 ∧ first.data.all Char.isDigit then
    if 12 < a.xtlabels.length then
      pure { a with
        xtVisible := (List.range a.xtlabels.length).map (fun i => i % 2 == 0) }
    else
      pure a
  else
    pure { a with warns := a.warns ++ hbarAdvGo a.xtlabels.length a.xtlabels 0 }

/-! ## Chart drawers (graphics.py lines 74-337) -/

/-- `np.arange(len(data.index))` as rationals. -/
def barPositions (d : DataFrame) : List ℚ :=
  List.map Nat.cast (List.range d.index.length)

/-- The colour expansion shared by the line and grouped-bar drawers:
with several columns and the default `color=[0]`, one colour index per
column. -/
def expandColor (ncols : Nat) (color : List Int) : List Int :=
  if 1 < ncols ∧ color = [0] then (List.range ncols).map Int.ofNat else color

/-- The plotting loop of `draw_line_chart`:
`ax.plot(series, lw=lw, color=colors[int(color[i])])` per column. -/
def lineLoop (color : List Int) (colors : List String) (lw : ℚ) (idx : List ℚ) :
    List (String × List ℚ) → Nat → Except String (List LineObj)
  | [], _ => .ok []
  | (_, vs) :: rest, i => do
    let ci ← pyGet color i
    let c ← pyGet colors ci
    let ls ← lineLoop color colors lw idx rest (i + 1)
    .ok ({ xs := idx, ys := vs, lw := lw, color := c } :: ls)

/-- The `label_lines` loop of `draw_line_chart`: an end-of-line label
`f'{name}: {last:,.0f}'` per series. -/
def labelLineLoop (idx : List ℚ) :
    List (String × List ℚ) → Except String (List TextObj)
  | [] => .ok []
  | (name, vs) :: rest => do
    let x ← lastE idx
    let y ← lastE vs
    let ts ← labelLineLoop idx rest
    .ok ({ x := x, y := y, text := name ++ ": " ++ fmtComma0 y,
           size := some (.named "small") } :: ts)

/-- `draw_line_chart(data, lw=2, label_lines=False, color=[0], **kwargs)`. -/
def draw_line_chart (d : DataFrame) (o : Opts) (env : PlotEnv) :
    Except String Figure := do
  let fig := figInit env
  let color := expandColor d.ncols o.color
  let lines ← lineLoop color env.colors o.lw d.index d.cols 0
  let a := { fig.ax with lines := lines }
  let a ← if o.label_lines then do
      let ts ← labelLineLoop d.index d.cols
      pure { a with texts := a.texts ++ ts }
    else pure a
  let a := fix_xticks_for_short_series d a
  format_figure env d { fig with ax := a } o

/-- The per-band centre labels of `draw_filled_line_chart`:
`zip(stacked.columns, midvals[:-1], midvals[1:])`, each label at the
x midpoint and the vertical midpoint of its band. -/
def areaTexts (d : DataFrame) (xmid : ℚ) (row : List ℚ) : List TextObj :=
  let midvals : List ℚ := 0 :: row
  ((d.cols.map Prod.fst).zip (midvals.dropLast.zip (midvals.drop 1))).map
    (fun nlu => { x := xmid, y := (nlu.2.1 + nlu.2.2) / 2, text := nlu.1 })

/-- `draw_filled_line_chart(data, label_area=False, **kwargs)` — the
stacked-area chart.  With `label_area`, the band labels are positioned by
looking the midpoint of `ax.get_xbound()` up as an index key in the
column-wise cumulative sums: pandas `.xs` raises `KeyError` when that
midpoint is not an index value. -/
def draw_filled_line_chart (d : DataFrame) (o : Opts) (env : PlotEnv) :
    Except String Figure := do
  let fig := figInit env
  -- `np.row_stack(data[i] for i in list(data))` with no columns
  if d.cols.isEmpty then
    .error "ValueError: need at least one array to concatenate"
  else do
    let a := { fig.ax with areas := d.cols.map (fun c => (d.index, c.2)) }
    let a := fix_xticks_for_short_series d a
    let a ← if o.label_area then do
        let xmid := (a.xlim.1 + a.xlim.2) / 2
        match xsRow d xmid with
        | none => .error "KeyError"
        | some row => pure { a with texts := a.texts ++ areaTexts d xmid row }
      else pure a
    format_figure env d { fig with ax := a } o

/-- `draw_scatter_plot(data, xmin=None, xmax=None, **kwargs)`.  The
`xmin`/`xmax` parameters are declared but immediately shadowed by
`ax.get_xlim()` (lines 330-335), so the supplied values never reach the
figure; both limit pairs passed on to the formatter are the autoscaled
ones. -/
def draw_scatter_plot (d : DataFrame) (o : Opts) (env : PlotEnv) :
    Except String Figure := do
  let fig := figInit env
  let a := { fig.ax with scatters := d.cols.map (fun c => (d.index, c.2)) }
  let a := if 1 < d.cols.length then { a with legend := true } else a
  format_figure env d { fig with ax := a }
    { o with xlim := some (some a.xlim.1, some a.xlim.2),
             ylim := some (some a.ylim.1, some a.ylim.2) }

/-- The per-series loop of `draw_vertical_bar_chart`: a bar group offset
by `i * width` plus one `'{:,.0f}'` value label per bar, font size
`18 - 3 * len(data.columns)`. -/
def vbarLoop (color : List Int) (colors : List String) (bars : List ℚ)
    (width : ℚ) (ncols : Nat) :
    List (String × List ℚ) → Nat → Except String (List BarObj × List TextObj)
  | [], _ => .ok ([], [])
  | (_, vs) :: rest, i => do
    let ci ← pyGet color i
    let c ← pyGet colors ci
    let m ← maxE vs
    let b : BarObj :=
      { pos := bars.map (· + (i : ℚ) * width), vals := vs,
        start := List.replicate vs.length 0, thickness := width,
        horizontal := false, color := some c }
    let ts := (bars.zip vs).map (fun jk =>
      { x := jk.1 + (i : ℚ) * width, y := jk.2 + m * (1/100),
        text := fmtComma0 jk.2, size := some (.pt (18 - (ncols : ℚ) * 3)) })
    let (bs, tss) ← vbarLoop color colors bars width ncols rest (i + 1)
    .ok (b :: bs, ts ++ tss)

/-- `draw_vertical_bar_chart(data, xmin=None, xmax=None, ymin=None,
ymax=None, color=[0], **kwargs)`.  The limit guards are truthiness tests
(`if not xmin:`), so a supplied limit of `0` falls back to the default.
The extra `grid=True` passed to `format_figure` coincides with that
function's default. -/
def draw_vertical_bar_chart (d : DataFrame) (o : Opts) (env : PlotEnv) :
    Except String Figure := do
  let fig := figInit env
  if d.ncols = 0 then .error "ZeroDivisionError: division by zero"
  else do
    let bars := barPositions d
    let width : ℚ := (2/3) / (d.ncols : ℚ)
    let color := expandColor d.ncols o.color
    let (bs, ts) ← vbarLoop color env.colors bars width d.ncols d.cols 0
    let a := { fig.ax with bars := bs, texts := ts }
    let xmin ← if falsyNum o.xmin then do
        let mn ← minE bars
        pure (mn - width * (3/4) * (d.ncols : ℚ))
      else pure (o.xmin.getD 0)
    let xmax ← if falsyNum o.xmax then do
        let mx ← maxE bars
        pure (mx + width * (d.ncols : ℚ))
      else pure (o.xmax.getD 0)
    let ymin := if falsyNum o.ymin then a.ylim.1 else o.ymin.getD 0
    let ymax := if falsyNum o.ymax then a.ylim.2 else o.ymax.getD 0
    let a := setXticks a (bars.map (· + width * ((d.ncols : ℚ) * (1/2) - 1/2)))
    let a := setXtickLabels a (d.index.map ratStr)
    let a := { a with ticksOff := true }
    let a := setYtickLabels a (a.yticks.map fmtComma0)
    let a := { a with hlines := a.yticks }
    let a := { a with spineLeft := false, spineBottom := true }
    let a ← fix_xaxis_vertical_bar d a
    format_figure env d { fig with ax := a }
      { o with xlim := some (some xmin, some xmax),
               ylim := some (some ymin, some ymax), grid := true }

/-- The per-series loop of `draw_horizontal_bar_chart`: bar rows offset by
`i * height`; value labels are percentages (`'{:.2%}'`) when the series
maximum is below 1 and `'{:,.0f}'` integers otherwise, font size
`18 - 3 * len(data.columns)`. -/
def hbarLoop (color : List Int) (colors : List String) (bars : List ℚ)
    (height : ℚ) (ncols : Nat) :
    List (String × List ℚ) → Nat → Except String (List BarObj × List TextObj)
  | [], _ => .ok ([], [])
  | (_, vs) :: rest, i => do
    let ci ← pyGet color i
    let c ← pyGet colors ci
    let m ← maxE vs
    let b : BarObj :=
      { pos := bars.map (· + (i : ℚ) * height), vals := vs,
        start := List.replicate vs.length 0, thickness := height,
        horizontal := true, color := some c }
    let ts := (bars.zip vs).map (fun jk =>
      { x := jk.2 + m * (1/100), y := jk.1 + (i : ℚ) * height,
        text := if m < 1 then fmtPct2 jk.2 else fmtComma0 jk.2,
        size := some (.pt (18 - (ncols : ℚ) * 3)) })
    let (bs, tss) ← hbarLoop color colors bars height ncols rest (i + 1)
    .ok (b :: bs, ts ++ tss)

/-- `draw_horizontal_bar_chart(data, xmin=None, xmax=None, ymin=None,
ymax=None, color=[0], **kwargs)`. -/
def draw_horizontal_bar_chart (d : DataFrame) (o : Opts) (env : PlotEnv) :
    Except String Figure := do
  let fig := figInit env
  if d.ncols = 0 then .error "ZeroDivisionError: division by zero"
  else do
    let bars := barPositions d
    let height : ℚ := (2/3) / (d.ncols : ℚ)
    let color := expandColor d.ncols o.color
    let (bs, ts) ← hbarLoop color env.colors bars height d.ncols d.cols 0
    let a := { fig.ax with bars := bs, texts := ts }
    let ymin ← if falsyNum o.ymin then do
        let mn ← minE bars
        pure (mn - height * (3/4) * (d.ncols : ℚ))
      else pure (o.ymin.getD 0)
    let ymax ← if falsyNum o.ymax then do
        let mx ← maxE bars
        pure (mx + height * (d.ncols : ℚ))
      else pure (o.ymax.getD 0)
    let xmin := if falsyNum o.xmin then a.xlim.1 else o.xmin.getD 0
    let xmax := if falsyNum o.xmax then a.xlim.2 else o.xmax.getD 0
    let a := setYticks a (bars.map (· + height * ((d.ncols : ℚ) * (1/2) - 1/2)))
    let a := setYtickLabels a (d.index.map ratStr)
    let a := setXtickLabels a
      (if xmax < 1 then a.xticks.map fmtPct0 else a.xticks.map fmtComma0)
    let a := { a with ticksOff := true }
    let a := { a with vlines := a.xticks }
    let a := { a with spineLeft := true, spineBottom := false }
    let o ← if o.xlabel = none then do
        let c ← headE d.cols
        pure { o with xlabel := some (some c.1) }
      else pure o
    let o := if o.ylabel = none then { o with ylabel := some d.indexName } else o
    format_figure env d { fig with ax := a }
      { o with xlim := some (some xmin, some xmax),
               ylim := some (some ymin, some ymax) }

/-- The plotting loop of `draw_vertical_stacked_bar`:
`for column in data.columns[::-1]: ax.bar(bars, data[column],
bottom=data_bottoms[column], width=width, label=column)` — the columns
are iterated in reverse order, each with its shifted-cumulative-sum
bottoms. -/
def stackedVbarObjs (d : DataFrame) (bars : List ℚ) (width : ℚ) : List BarObj :=
  ((d.cols.zip (stackBottoms d)).reverse).map (fun cb =>
    { pos := bars, vals := cb.1.2, start := cb.2, thickness := width,
      horizontal := false, label := some cb.1.1 })

/-- The plotting loop of `draw_horizontal_stacked_bar`:
`for column in data: ax.barh(bars, data[column],
left=data_bottoms[column], height=height, label=column)` — forward column
order. -/
def stackedHbarObjs (d : DataFrame) (bars : List ℚ) (height : ℚ) : List BarObj :=
  (d.cols.zip (stackBottoms d)).map (fun cb =>
    { pos := bars, vals := cb.1.2, start := cb.2, thickness := height,
      horizontal := true, label := some cb.1.1 })

/-- `draw_vertical_stacked_bar(data, xmin=None, xmax=None, ymin=None,
ymax=None, color=[0], **kwargs)`. -/
def draw_vertical_stacked_bar (d : DataFrame) (o : Opts) (env : PlotEnv) :
    Except String Figure := do
  let fig := figInit env
  let bars := barPositions d
  let width : ℚ := 66/100
  let a := { fig.ax with bars := stackedVbarObjs d bars width, legend := true }
  let xmin ← if falsyNum o.xmin then do
      let mn ← minE bars
      pure (mn - width)
    else pure (o.xmin.getD 0)
  let xmax ← if falsyNum o.xmax then do
      let mx ← maxE bars
      pure (mx + width)
    else pure (o.xmax.getD 0)
  let ymin := if falsyNum o.ymin then a.ylim.1 else o.ymin.getD 0
  let ymax := if falsyNum o.ymax then a.ylim.2 else o.ymax.getD 0
  let a := setXticks a bars
  let a := setXtickLabels a (d.index.map ratStr)
  let a := { a with ticksOff := true }
  let a := setYtickLabels a (a.yticks.map fmtComma0)
  let a := { a with spineLeft := false, spineBottom := true }
  let a ← fix_xaxis_vertical_bar d a
  format_figure env d { fig with ax := a }
    { o with xlim := some (some xmin, some xmax),
             ylim := some (some ymin, some ymax) }

/-- `draw_horizontal_stacked_bar(data, xmin=None, xmax=None, ymin=None,
ymax=None, color=[0], **kwargs)`. -/
def draw_horizontal_stacked_bar (d : DataFrame) (o : Opts) (env : PlotEnv) :
    Except String Figure := do
  let fig := figInit env
  let bars := barPositions d
  let height : ℚ := 66/100
  let a := { fig.ax with bars := stackedHbarObjs d bars height, legend := true }
  let ymin ← if falsyNum o.ymin then do
      let mn ← minE bars
      pure (mn - height)
    else pure (o.ymin.getD 0)
  let ymax ← if falsyNum o.ymax then do
      let mx ← maxE bars
      pure (mx + height)
    else pure (o.ymax.getD 0)
  let xmin := if falsyNum o.xmin then a.xlim.1 else o.xmin.getD 0
  let xmax := if falsyNum o.xmax then a.xlim.2 else o.xmax.getD 0
  let a := setYticks a bars
  let a := setYtickLabels a (d.index.map ratStr)
  let o ← if o.xlabel = none then do
      let c ← headE d.cols
      pure { o with xlabel := some (some c.1) }
    else pure o
  let o := if o.ylabel = none then { o with ylabel := some d.indexName } else o
  format_figure env d { fig with ax := a }
    { o with xlim := some (some xmin, some xmax),
             ylim := some (some ymin, some ymax) }

/-! ## Dispatch (graphics.py lines 33-71) and image/file output -/

/-- The `kinds` dispatch table of `create_figure`. -/
def kindsTable : List (String × (DataFrame → Opts → PlotEnv → Except String Figure)) :=
  [("line", draw_line_chart),
   ("stacked_area", draw_filled_line_chart),
   ("scatter", draw_scatter_plot),
   ("horizontal_bar", draw_horizontal_bar_chart),
   ("vertical_bar", draw_vertical_bar_chart),
   ("stacked_vbar", draw_vertical_stacked_bar),
   ("stacked_hbar", draw_horizontal_stacked_bar)]

/-- The supported kind strings. -/
def supportedKinds : List String := kindsTable.map Prod.fst

/-- `create_figure(data, kind='line', **kwargs)`: dictionary dispatch; an
unknown kind raises `NotImplementedError` before any drawer runs. -/
def create_figure (d : DataFrame) (kind : String) (o : Opts) (env : PlotEnv) :
    Except String Figure :=
  match kindsTable.lookup kind with
  | none => .error "This chart type is not supported"
  | some drawer => drawer d o env

/-- `create_image(data, format='png', **kwargs)`: draw the figure, then
serialize it into a fresh byte buffer.  `encode` stands for matplotlib's
`Figure.savefig` encoder, a collaborator owned by the rendering library. -/
def create_image (encode : Figure → String → List Nat) (d : DataFrame)
    (format : String) (kind : String) (o : Opts) (env : PlotEnv) :
    Except String (List Nat) := do
  let fig ← create_figure d kind o env
  .ok (encode fig format)

/-! ## File output: `save_fig` (`__main__.py` lines 15-34 and
`__init__.py` lines 12-18) -/

/-- A `pathlib.Path`: directory components plus a file name split into
stem and extension (the extension without its dot, i.e.
`Path(outfile).suffix.strip('.')`). -/
structure PyPath where
  dirs : List String
  base : String
  ext : String
  deriving Repr, DecidableEq

/-- The file name including its extension. -/
def PyPath.fullName (p : PyPath) : String :=
  p.base ++ (if p.ext = "" then "" else "." ++ p.ext)

/-- `str(outfile)`. -/
def pathString (p : PyPath) : String :=
  String.intercalate "/" (p.dirs ++ [p.fullName])

/-- A file system: the set of existing directories and a map from
(directory, file name) to file bytes. -/
structure FS where
  dirs : List (List String)
  files : List ((List String × String) × List Nat)
  deriving Repr, DecidableEq

/-- Every ancestor of a directory path, the empty root included. -/
def ancestorDirs (l : List String) : List (List String) :=
  (List.range (l.length + 1)).map (fun k => l.take k)

/-- `outfile.parent.mkdir(parents=True, exist_ok=True)`. -/
def mkdirParents (fs : FS) (p : PyPath) : FS :=
  { fs with dirs :=
      fs.dirs ++ (ancestorDirs p.dirs).filter (fun a => !(fs.dirs.contains a)) }

/-- `outfile.write_bytes(buf)`: create or overwrite. -/
def writeFile (fs : FS) (p : PyPath) (bytes : List Nat) : FS :=
  { fs with files := ((p.dirs, p.fullName), bytes) ::
      fs.files.filter (fun e => !(e.1 == (p.dirs, p.fullName))) }

/-- The bytes stored at a path, if any. -/
def readFile (fs : FS) (p : PyPath) : Option (List Nat) :=
  (fs.files.find? (fun e => e.1 == (p.dirs, p.fullName))).map (·.2)

/-- `save_fig(outfile, **kwargs)` from `__main__.py` (lines 15-34): the
parent directories are created (`outfile.parent.mkdir(parents=True,
exist_ok=True)`) and the format is inferred from the extension, but the
call `bluesteel.graphics.create_image(...)` on line 31 looks up
`create_image` on the *package* `bluesteel.graphics`, whose `__init__.py`
binds only `graphics`, `__main__`, `save_fig`, `gen_chart` and
`__version__`; the attribute does not exist, so every call raises
`AttributeError` after the `mkdir` and before anything is written or
returned (a `format` entry in `kwargs` changes nothing: the lookup fails
before any argument binding).  The result pairs the mutated file system
with the exception; the `pd.to_datetime` coercion of string-typed
(`dtype == 'O'`) indexes does not apply to the numeric indexes of this
embedding. -/
def save_fig (outfile : PyPath) (d : DataFrame) (kind : String) (o : Opts)
    (env : PlotEnv) (fs : FS) : FS × Except String String :=
  (mkdirParents fs outfile,
   .error "AttributeError: module 'bluesteel.graphics' has no attribute 'create_image'")

/-- `save_fig(outfile, format='png', **kwargs)` from `__init__.py`: it
calls `graphics.draw_chart(**kwargs)`, but the `graphics` module defines
no `draw_chart` (the drawers are reached through `create_figure`), so
every call raises `AttributeError` before anything is drawn or written. -/
def init_save_fig (outfile : PyPath) (format : String) (d : DataFrame)
    (kind : String) (o : Opts) (env : PlotEnv) (fs : FS) :
    Except String (FS × String) :=
  .error "AttributeError: module 'bluesteel.graphics.graphics' has no attribute 'draw_chart'"

/-! ## `set_ticks_nonbar` (specific_formatting.py lines 52-122) -/

/-- The default tick label formatting of `set_ticks_nonbar` for one axis:
a tick maximum of at least 1,000,000 triggers the `'K'` abbreviation
(the year flag is not consulted in that branch); below 1,000,000 a year
axis renders plain `int(i)` values, any other axis `'{:,.0f}'`. -/
def defaultTickLabelsNonbar (ticks : List ℚ) (m : ℚ) (year : Bool) : List String :=
  if (1000000 : ℚ) ≤ m then bigTickLabels ticks true
  else if ¬year then ticks.map fmtComma0
  else ticks.map (fun i => toString (ratTrunc i))

/-- `set_ticks_nonbar(fig, ax, xtick_loc=None, xticklabels=None,
ytick_loc=None, yticklabels=None, xyear=None, yyear=None, **kwargs)`:
explicit tick locations and labels are applied verbatim; an axis without
explicit labels whose current labels are still empty gets the default
formatting above.  A scalar `ytick_loc` is wrapped into a list by the
source's `isinstance` check, which the list-typed embedding subsumes. -/
def set_ticks_nonbar (a : Axes) (o : Opts) : Except String Axes := do
  let a := if falsyList o.xtick_loc then a else setXticks a (o.xtick_loc.getD [])
  let a := if falsyList o.xtick_loc then a
    else if falsyList o.xticklabels then a
    else setXtickLabels a (o.xticklabels.getD [])
  let a := if falsyList o.ytick_loc then a else setYticks a (o.ytick_loc.getD [])
  let a := if falsyList o.ytick_loc then a
    else if falsyList o.yticklabels then a
    else setYtickLabels a (o.yticklabels.getD [])
  let a ← if falsyList o.xticklabels then do
      let first ← headE a.xtlabels
      if first.length = 0 then do
        let m ← maxE a.xticks
        pure (setXtickLabels a (defaultTickLabelsNonbar a.xticks m o.xyear))
      else pure a
    else pure a
  let a ← if falsyList o.yticklabels then do
      let first ← headE a.ytlabels
      if first.length = 0 then do
        let m ← maxE a.yticks
        pure (setYtickLabels a (defaultTickLabelsNonbar a.yticks m o.yyear))
      else pure a
    else pure a
  pure a

/-- The option fields consumed by the later stages of `format_figure`,
collected so the keyword-defaulting lemmas can state that defaulting only
touches labels and limits. -/
def keepsFmt (o o' : Opts) : Prop :=
  o'.yticks = o.yticks ∧ o'.xticks = o.xticks ∧ o'.grid = o.grid ∧
  o'.rot = o.rot ∧ o'.title = o.title ∧ o'.source = o.source ∧
  o'.spines = o.spines ∧ o'.label_thousands = o.label_thousands

/-! ## Concrete fixtures used by witnesses and counterexamples -/

/-- A plausible plotting environment: autoscale limits/ticks as matplotlib
would produce them for small positive data, the house colour cycle, an
8-inch-wide figure at 100 dpi, a 4:1 logo. -/
def env0 : PlotEnv :=
  { autoXlim := (0, 4), autoYlim := (0, 21/2),
    autoXticks := [0, 1, 2, 3, 4], autoYticks := [0, 5, 10],
    colors := ["#042E4D", "#E0BB30", "#5F6B6D", "#66B2B2"],
    figWidthInches := 8, dpi := 100, logoW := 1000, logoH := 250,
    axPosX1 := 9/10 }

/-- A small single-series data set over a year index. -/
def dLine : DataFrame :=
  ⟨some "Year", [2013, 2014, 2015, 2016], [("Restrictions", [3, 5, 4, 6])]⟩

/-- A two-bar data set containing a negative value, so that matplotlib's
autoscaled y floor is negative. -/
def dVbar : DataFrame := ⟨some "Year", [2010, 2011], [("vals", [-3, 5])]⟩

/-- The environment for `dVbar`: autoscale puts the y floor below zero. -/
def envVbar : PlotEnv :=
  { env0 with autoYlim := (-7/2, 11/2), autoYticks := [-2, 0, 2, 4] }

/-- A six-point series (at the short-series threshold). -/
def dLine6 : DataFrame :=
  ⟨some "Year", [2011, 2012, 2013, 2014, 2015, 2016],
   [("Restrictions", [3, 5, 4, 6, 7, 8])]⟩

/-- A two-column table for the stacked bar charts. -/
def dStack : DataFrame := ⟨some "cat", [0, 1], [("a", [1, 2]), ("b", [3, 4])]⟩

/-- Whether an `Except` computation succeeded (used by witnesses to
evaluate concrete chart runs inside `decide`). -/
def isOkE {α : Type} (x : Except String α) : Bool :=
  match x with
  | .ok _ => true
  | .error _ => false

/-- A single-bar table whose series maximum is below one. -/
def dFrac : DataFrame := ⟨some "cat", [0], [("share", [1/2])]⟩

/-- An environment with small y ticks (well below a million). -/
def envTick50 : PlotEnv := { env0 with autoYticks := [0, 50, 100] }

/-- An environment whose y ticks reach two million. -/
def envTickM : PlotEnv := { env0 with autoYticks := [0, 1000000, 2000000] }

/-- An axes whose y ticks reach one million, as `set_ticks_nonbar`
receives it from a freshly drawn non-bar chart. -/
def axesK : Axes := axesInit { env0 with autoXticks := [0, 1], autoYticks := [0, 1000000] }

/-! ## C1 — `create_figure` dispatch -/

/-- **C1.** For every kind string outside the supported set,
`create_figure` fails with the unsupported-chart-type error and produces
no figure; for each supported kind it dispatches to the corresponding
drawer and returns that drawer's result. -/
theorem create_figure_dispatch (d : DataFrame) (kind : String) (o : Opts)
    (env : PlotEnv) (h : kind ∉ supportedKinds) :
    create_figure d kind o env = .error "This chart type is not supported"
    ∧ create_figure d "line" o env = draw_line_chart d o env
    ∧ create_figure d "stacked_area" o env = draw_filled_line_chart d o env
    ∧ create_figure d "scatter" o env = draw_scatter_plot d o env
    ∧ create_figure d "horizontal_bar" o env = draw_horizontal_bar_chart d o env
    ∧ create_figure d "vertical_bar" o env = draw_vertical_bar_chart d o env
    ∧ create_figure d "stacked_vbar" o env = draw_vertical_stacked_bar d o env
    ∧ create_figure d "stacked_hbar" o env = draw_horizontal_stacked_bar d o env := by
  refine ⟨?_, rfl, rfl, rfl, rfl, rfl, rfl, rfl⟩
  simp only [supportedKinds, kindsTable, List.map, List.mem_cons,
    List.not_mem_nil, or_false, not_or] at h
  obtain ⟨h1, h2, h3, h4, h5, h6, h7⟩ := h
  simp [create_figure, kindsTable, List.lookup, beq_eq_false_iff_ne.mpr h1,
    beq_eq_false_iff_ne.mpr h2, beq_eq_false_iff_ne.mpr h3,
    beq_eq_false_iff_ne.mpr h4, beq_eq_false_iff_ne.mpr h5,
    beq_eq_false_iff_ne.mpr h6, beq_eq_false_iff_ne.mpr h7]

/-- Witness for C1 at the unsupported kind `"pie"`. -/
theorem create_figure_dispatch_witness :
    ("pie" ∉ supportedKinds)
    ∧ create_figure dLine "pie" plainOpts env0 =
        .error "This chart type is not supported" := by
  have h : "pie" ∉ supportedKinds := by decide
  exact ⟨h, (create_figure_dispatch dLine "pie" plainOpts env0 h).1⟩

/-! ## C10 — the `label_area` midpoint lookup of the stacked-area chart -/

/-- The pandas `.xs` lookup is defined exactly on index members. -/
theorem xsRow_isSome (d : DataFrame) (k : ℚ) :
    (xsRow d k).isSome ↔ k ∈ d.index := by
  constructor
  · intro hs
    by_contra hmem
    have hn : d.index.indexOf? k = none := by
      apply List.indexOf?_eq_none_iff.mpr
      intro x hx
      simp only [beq_iff_eq]
      intro e
      exact hmem (e ▸ hx)
    unfold xsRow at hs
    rw [hn] at hs
    simp at hs
  · intro hmem
    cases h : d.index.indexOf? k with
    | some i => unfold xsRow; rw [h]; simp
    | none =>
      have := List.indexOf?_eq_none_iff.mp h k hmem
      simp at this

/-- **C10.** With band labels enabled, the stacked-area drawer looks the
midpoint of the x-bounds up as an index key of the cumulatively-summed
data; the lookup is defined exactly when that midpoint is an index value,
and for every (drawable) dataset whose x-bounds midpoint is not an index
value the call fails with the lookup (`KeyError`) error. -/
theorem stacked_area_midpoint_lookup (d : DataFrame) (o : Opts) (env : PlotEnv)
    (hcols : d.cols ≠ [])
    (hla : o.label_area = true)
    (hmid : (env.autoXlim.1 + env.autoXlim.2) / 2 ∉ d.index) :
    draw_filled_line_chart d o env = .error "KeyError"
    ∧ ∀ k : ℚ, (xsRow d k).isSome ↔ k ∈ d.index := by
  refine ⟨?_, fun k => xsRow_isSome d k⟩
  have hnone : xsRow d ((env.autoXlim.1 + env.autoXlim.2) / 2) = none := by
    rcases hx : xsRow d ((env.autoXlim.1 + env.autoXlim.2) / 2) with _ | r
    · rfl
    · exact absurd ((xsRow_isSome d _).mp (by rw [hx]; rfl)) hmid
  have hie : d.cols.isEmpty = false := by
    rcases hc : d.cols with _ | ⟨c, cs⟩
    · exact absurd hc hcols
    · rfl
  unfold draw_filled_line_chart
  rw [hie]
  by_cases h6 : d.index.length < 6 <;>
    simp only [Bool.false_eq_true, if_false, hla, if_true,
      fix_xticks_for_short_series, h6, setXticks, figInit, axesInit, hnone] <;>
    rfl

/-- Witness for C10: a four-year index whose x-bounds midpoint `2` is not
an index value. -/
theorem stacked_area_midpoint_lookup_witness :
    dLine.cols ≠ [] ∧ ((env0.autoXlim.1 + env0.autoXlim.2) / 2 ∉ dLine.index)
    ∧ draw_filled_line_chart dLine { label_area := true } env0 = .error "KeyError" := by
  have hmid : (env0.autoXlim.1 + env0.autoXlim.2) / 2 ∉ dLine.index := by
    norm_num [env0, dLine]
  refine ⟨by norm_num [dLine], hmid, ?_⟩
  exact (stacked_area_midpoint_lookup dLine { label_area := true } env0
    (by norm_num [dLine]) rfl hmid).1

/-! ## Lemma kit: `Except` binds and `format_figure` stage behaviour -/

theorem bindOkRight {α β : Type} {m : Except String α}
    {f : α → Except String β} {b : β} (h : m >>= f = .ok b) :
    ∃ a, f a = .ok b := by
  cases m with
  | error e => exact Except.noConfusion h
  | ok a => exact ⟨a, h⟩

theorem bindOk {α β : Type} {m : Except String α} {f : α → Except String β} {b : β} :
    m >>= f = .ok b ↔ ∃ a, m = .ok a ∧ f a = .ok b := by
  cases m with
  | error e =>
    constructor
    · intro h
      exact Except.noConfusion h
    · rintro ⟨a, ha, -⟩
      exact Except.noConfusion ha
  | ok a =>
    constructor
    · intro h
      exact ⟨a, rfl, h⟩
    · rintro ⟨a', ha, hf⟩
      cases ha
      exact hf

@[simp] theorem applyYticksKw_xticks (a : Axes) (o : Opts) :
    (applyYticksKw a o).xticks = a.xticks := by
  unfold applyYticksKw setYticks
  cases o.yticks <;> rfl

@[simp] theorem applyYticksKw_xticksUserSet (a : Axes) (o : Opts) :
    (applyYticksKw a o).xticksUserSet = a.xticksUserSet := by
  unfold applyYticksKw setYticks
  cases o.yticks <;> rfl

@[simp] theorem applyYticksKw_xtlabels (a : Axes) (o : Opts) :
    (applyYticksKw a o).xtlabels = a.xtlabels := by
  unfold applyYticksKw setYticks
  cases o.yticks <;> rfl

@[simp] theorem applyYticksKw_bars (a : Axes) (o : Opts) :
    (applyYticksKw a o).bars = a.bars := by
  unfold applyYticksKw setYticks
  cases o.yticks <;> rfl

@[simp] theorem applyYticksKw_texts (a : Axes) (o : Opts) :
    (applyYticksKw a o).texts = a.texts := by
  unfold applyYticksKw setYticks
  cases o.yticks <;> rfl

@[simp] theorem applyYticksKw_warns (a : Axes) (o : Opts) :
    (applyYticksKw a o).warns = a.warns := by
  unfold applyYticksKw setYticks
  cases o.yticks <;> rfl

@[simp] theorem applyYticksKw_xlim (a : Axes) (o : Opts) :
    (applyYticksKw a o).xlim = a.xlim := by
  unfold applyYticksKw setYticks
  cases o.yticks <;> rfl

@[simp] theorem applyYticksKw_ylim (a : Axes) (o : Opts) :
    (applyYticksKw a o).ylim = a.ylim := by
  unfold applyYticksKw setYticks
  cases o.yticks <;> rfl

@[simp] theorem applyXtickLabelsKw_xticks (d : DataFrame) (a : Axes) (o : Opts) :
    (applyXtickLabelsKw d a o).xticks = a.xticks := by
  unfold applyXtickLabelsKw setXtickLabels
  cases o.xticks <;> rfl

@[simp] theorem applyXtickLabelsKw_xticksUserSet (d : DataFrame) (a : Axes) (o : Opts) :
    (applyXtickLabelsKw d a o).xticksUserSet = a.xticksUserSet := by
  unfold applyXtickLabelsKw setXtickLabels
  cases o.xticks <;> rfl

@[simp] theorem applyXtickLabelsKw_bars (d : DataFrame) (a : Axes) (o : Opts) :
    (applyXtickLabelsKw d a o).bars = a.bars := by
  unfold applyXtickLabelsKw setXtickLabels
  cases o.xticks <;> rfl

@[simp] theorem applyXtickLabelsKw_texts (d : DataFrame) (a : Axes) (o : Opts) :
    (applyXtickLabelsKw d a o).texts = a.texts := by
  unfold applyXtickLabelsKw setXtickLabels
  cases o.xticks <;> rfl

@[simp] theorem applyXtickLabelsKw_ylim (d : DataFrame) (a : Axes) (o : Opts) :
    (applyXtickLabelsKw d a o).ylim = a.ylim := by
  unfold applyXtickLabelsKw setXtickLabels
  cases o.xticks <;> rfl

@[simp] theorem applyXtickLabelsKw_xlim (d : DataFrame) (a : Axes) (o : Opts) :
    (applyXtickLabelsKw d a o).xlim = a.xlim := by
  unfold applyXtickLabelsKw setXtickLabels
  cases o.xticks <;> rfl

@[simp] theorem applyXtickLabelsKw_ytlabels (d : DataFrame) (a : Axes) (o : Opts) :
    (applyXtickLabelsKw d a o).ytlabels = a.ytlabels := by
  unfold applyXtickLabelsKw setXtickLabels
  cases o.xticks <;> rfl

@[simp] theorem applyXtickLabelsKw_yticks (d : DataFrame) (a : Axes) (o : Opts) :
    (applyXtickLabelsKw d a o).yticks = a.yticks := by
  unfold applyXtickLabelsKw setXtickLabels
  cases o.xticks <;> rfl

/-- With explicit x tick labels, the formatter warns exactly per
`xtickWarns` and applies the labels verbatim. -/
theorem applyXtickLabelsKw_some (d : DataFrame) (a : Axes) (o : Opts)
    (ls : List String) (h : o.xticks = some ls) :
    (applyXtickLabelsKw d a o).warns = a.warns ++ xtickWarns d ls
    ∧ (applyXtickLabelsKw d a o).xtlabels = ls := by
  unfold applyXtickLabelsKw setXtickLabels
  rw [h]
  exact ⟨rfl, rfl⟩

/-- `relabelY` only rewrites the y tick labels. -/
theorem relabelY_proj (a a' : Axes) (lt : Bool) (h : relabelY a lt = .ok a') :
    a'.xticks = a.xticks ∧ a'.xticksUserSet = a.xticksUserSet ∧
    a'.xtlabels = a.xtlabels ∧ a'.bars = a.bars ∧ a'.texts = a.texts ∧
    a'.warns = a.warns ∧ a'.xlim = a.xlim ∧ a'.ylim = a.ylim ∧
    a'.yticks = a.yticks := by
  unfold relabelY at h
  rw [bindOk] at h
  obtain ⟨first, hfirst, h⟩ := h
  by_cases hz : first.length = 0
  · rw [if_pos hz, bindOk] at h
    obtain ⟨m, hm, h⟩ := h
    cases h
    simp [setYtickLabels]
  · rw [if_neg hz] at h
    cases h
    simp

/-- Characterization of a successful `format_figure` run as its stages. -/
theorem format_figure_ok (env : PlotEnv) (d : DataFrame) (fig : Figure)
    (o : Opts) (fig' : Figure) (h : format_figure env d fig o = .ok fig') :
    ∃ o' a3, ffKwargs d o = .ok o'
      ∧ relabelY (applyXtickLabelsKw d (applyYticksKw fig.ax o') o')
          o'.label_thousands = .ok a3
      ∧ fig' = ffFinish env fig o' a3 := by
  unfold format_figure at h
  rw [bindOk] at h
  obtain ⟨o', ho', h⟩ := h
  rw [bindOk] at h
  obtain ⟨a3, ha3, h⟩ := h
  cases h
  exact ⟨o', a3, ho', ha3, rfl⟩

theorem keepsFmt_trans {o1 o2 o3 : Opts} (h1 : keepsFmt o1 o2)
    (h2 : keepsFmt o2 o3) : keepsFmt o1 o3 := by
  obtain ⟨a1, a2, a3, a4, a5, a6, a7, a8⟩ := h1
  obtain ⟨b1, b2, b3, b4, b5, b6, b7, b8⟩ := h2
  exact ⟨b1.trans a1, b2.trans a2, b3.trans a3, b4.trans a4, b5.trans a5,
    b6.trans a6, b7.trans a7, b8.trans a8⟩

theorem ffXlabelKw_spec (d : DataFrame) (o : Opts) :
    keepsFmt o (ffXlabelKw d o) ∧ (ffXlabelKw d o).ylim = o.ylim
    ∧ (ffXlabelKw d o).xlim = o.xlim := by
  unfold ffXlabelKw keepsFmt
  split <;> simp

theorem ffYlabelKw_spec (d : DataFrame) (o o' : Opts)
    (h : ffYlabelKw d o = .ok o') :
    keepsFmt o o' ∧ o'.ylim = o.ylim ∧ o'.xlim = o.xlim := by
  unfold ffYlabelKw at h
  split at h
  · rw [bindOk] at h
    obtain ⟨c, hc, h⟩ := h
    cases h
    unfold keepsFmt
    simp
  · cases h
    unfold keepsFmt
    simp

theorem ffYlimKw_spec (o : Opts) :
    keepsFmt o (ffYlimKw o) ∧ (ffYlimKw o).xlim = o.xlim
    ∧ (o.ylim = none → (ffYlimKw o).ylim = some (some 0, none))
    ∧ (∀ p, o.ylim = some p → (ffYlimKw o).ylim = some p) := by
  unfold ffYlimKw keepsFmt
  split <;> simp_all

theorem ffXlimKw_spec (d : DataFrame) (o o' : Opts)
    (h : ffXlimKw d o = .ok o') :
    keepsFmt o o' ∧ o'.ylim = o.ylim
    ∧ (∀ p, o.xlim = some p → o'.xlim = some p)
    ∧ (o.xlim = none → ∃ mn mx, minE d.index = .ok mn ∧ maxE d.index = .ok mx
        ∧ o'.xlim = some (some mn, some mx)) := by
  unfold ffXlimKw at h
  split at h
  next hc =>
    rw [bindOk] at h
    obtain ⟨mn, hmn, h⟩ := h
    rw [bindOk] at h
    obtain ⟨mx, hmx, h⟩ := h
    cases h
    refine ⟨⟨rfl, rfl, rfl, rfl, rfl, rfl, rfl, rfl⟩, rfl, ?_, ?_⟩
    · intro p hp
      rw [hc] at hp
      cases hp
    · intro _
      exact ⟨mn, mx, hmn, hmx, rfl⟩
  next hc =>
    cases h
    refine ⟨⟨rfl, rfl, rfl, rfl, rfl, rfl, rfl, rfl⟩, rfl, ?_, ?_⟩
    · intro p hp
      exact hp
    · intro hp
      exact absurd hp hc

/-- What the keyword-defaulting stage of `format_figure` does to the
fields the later stages read. -/
theorem ffKwargs_spec (d : DataFrame) (o o' : Opts)
    (h : ffKwargs d o = .ok o') :
    keepsFmt o o'
    ∧ (∀ p, o.ylim = some p → o'.ylim = some p)
    ∧ (o.ylim = none → o'.ylim = some (some 0, none))
    ∧ (∀ p, o.xlim = some p → o'.xlim = some p)
    ∧ (o.xlim = none → ∃ mn mx, minE d.index = .ok mn ∧ maxE d.index = .ok mx
        ∧ o'.xlim = some (some mn, some mx)) := by
  unfold ffKwargs at h
  rw [bindOk] at h
  obtain ⟨o2, ho2, h⟩ := h
  obtain ⟨k1, e1y, e1x⟩ := ffXlabelKw_spec d o
  obtain ⟨k2, e2y, e2x⟩ := ffYlabelKw_spec d _ _ ho2
  obtain ⟨k3, e3x, e3yn, e3ys⟩ := ffYlimKw_spec o2
  obtain ⟨k4, e4y, e4xs, e4xn⟩ := ffXlimKw_spec d _ _ h
  refine ⟨keepsFmt_trans (keepsFmt_trans (keepsFmt_trans k1 k2) k3) k4, ?_, ?_, ?_, ?_⟩
  · intro p hp
    exact e4y.trans (e3ys p (e2y.trans (e1y.trans hp)))
  · intro hp
    exact e4y.trans (e3yn (e2y.trans (e1y.trans hp)))
  · intro p hp
    exact e4xs p (e3x.trans (e2x.trans (e1x.trans hp)))
  · intro hp
    exact e4xn (e3x.trans (e2x.trans (e1x.trans hp)))

/-- The axis limits a formatted figure ends with, when both limit pairs
were supplied: each `None` half keeps the incoming boundary. -/
theorem format_figure_lims (env : PlotEnv) (d : DataFrame) (fig : Figure)
    (o : Opts) (fig' : Figure) (py px : Option ℚ × Option ℚ)
    (hy : o.ylim = some py) (hx : o.xlim = some px)
    (h : format_figure env d fig o = .ok fig') :
    fig'.ax.ylim = (py.1.getD fig.ax.ylim.1, py.2.getD fig.ax.ylim.2)
    ∧ fig'.ax.xlim = (px.1.getD fig.ax.xlim.1, px.2.getD fig.ax.xlim.2) := by
  obtain ⟨o', a3, hk, hr, hfig⟩ := format_figure_ok env d fig o fig' h
  obtain ⟨-, hys, -, hxs, -⟩ := ffKwargs_spec d o o' hk
  have hylim' := hys py hy
  have hxlim' := hxs px hx
  obtain ⟨-, -, -, -, -, -, hxl, hyl, -⟩ := relabelY_proj _ _ _ hr
  subst hfig
  show (applySetKw _ o').ylim = _ ∧ (applySetKw _ o').xlim = _
  unfold applySetKw
  rw [hylim', hxlim']
  simp [hyl, hxl]

/-- The axis limits a formatted figure ends with, when no limit pair was
supplied: y from the `[0, None]` default, x from the index range. -/
theorem format_figure_defaults (env : PlotEnv) (d : DataFrame) (fig : Figure)
    (o : Opts) (fig' : Figure) (hy : o.ylim = none) (hx : o.xlim = none)
    (h : format_figure env d fig o = .ok fig') :
    fig'.ax.ylim = (0, fig.ax.ylim.2)
    ∧ ∃ mn mx, minE d.index = .ok mn ∧ maxE d.index = .ok mx
        ∧ fig'.ax.xlim = (mn, mx) := by
  obtain ⟨o', a3, hk, hr, hfig⟩ := format_figure_ok env d fig o fig' h
  obtain ⟨-, -, hyn, -, hxn⟩ := ffKwargs_spec d o o' hk
  have hy' := hyn hy
  obtain ⟨mn, mx, hmn, hmx, hx'⟩ := hxn hx
  obtain ⟨-, -, -, -, -, -, hxl, hyl, -⟩ := relabelY_proj _ _ _ hr
  subst hfig
  constructor
  · show (applySetKw _ o').ylim = _
    unfold applySetKw
    rw [hy']
    simp [hyl]
  · refine ⟨mn, mx, hmn, hmx, ?_⟩
    show (applySetKw _ o').xlim = _
    unfold applySetKw
    rw [hx']
    simp

@[simp] theorem fix_xticks_ylim (d : DataFrame) (a : Axes) :
    (fix_xticks_for_short_series d a).ylim = a.ylim := by
  unfold fix_xticks_for_short_series setXticks
  split <;> rfl

@[simp] theorem fix_xticks_xlim (d : DataFrame) (a : Axes) :
    (fix_xticks_for_short_series d a).xlim = a.xlim := by
  unfold fix_xticks_for_short_series setXticks
  split <;> rfl

/-- `fix_xaxis_vertical_bar` only toggles label visibility and prints. -/
theorem fix_xaxis_proj (d : DataFrame) (a a' : Axes)
    (h : fix_xaxis_vertical_bar d a = .ok a') :
    a'.ylim = a.ylim ∧ a'.xlim = a.xlim ∧ a'.bars = a.bars
    ∧ a'.texts = a.texts ∧ a'.xticks = a.xticks
    ∧ a'.xticksUserSet = a.xticksUserSet ∧ a'.ytlabels = a.ytlabels
    ∧ a'.yticks = a.yticks ∧ a'.xtlabels = a.xtlabels := by
  unfold fix_xaxis_vertical_bar at h
  rw [bindOk] at h
  obtain ⟨first, hfirst, h⟩ := h
  split at h
  · split at h <;> (cases h; simp)
  · cases h
    simp

/-! ## C3 — axis limits: explicit values, zero, and defaults -/

/-- **C3 counterexample.**  The claim says a supplied y-minimum of `0` is
honored; against `draw_vertical_bar_chart` the `if not ymin:` truthiness
guard treats `0` as absent, and the figure keeps the autoscaled floor
`-7/2` instead of the requested `0`. -/
theorem vbar_ymin_zero_not_honored :
    (draw_vertical_bar_chart dVbar { ymin := some 0, ymax := some 6 } envVbar).map
      (fun f => f.ax.ylim) = .ok (-7/2, 6)
    ∧ ((-7/2 : ℚ) ≠ 0) := by
  exact ⟨by rfl, by norm_num⟩

/-- **C3 as amended.**  (i) `draw_vertical_bar_chart` honours supplied
axis limits only when they are nonzero (Python truthiness: a supplied `0`
falls back to the default, as the counterexample shows); (ii) for chart
kinds that pass no limits to the formatter (the line chart), the y-axis
minimum defaults to `0` (keeping the autoscaled top) and the x-limits
default to the extremes of the index values. -/
theorem axis_limits_amended :
    (∀ (d : DataFrame) (o : Opts) (env : PlotEnv) (fig : Figure) (v w x y : ℚ),
      o.ymin = some v → v ≠ 0 → o.ymax = some w → w ≠ 0 →
      o.xmin = some x → x ≠ 0 → o.xmax = some y → y ≠ 0 →
      draw_vertical_bar_chart d o env = .ok fig →
      fig.ax.ylim = (v, w) ∧ fig.ax.xlim = (x, y))
    ∧ (∀ (d : DataFrame) (o : Opts) (env : PlotEnv) (fig : Figure),
      o.ylim = none → o.xlim = none →
      draw_line_chart d o env = .ok fig →
      fig.ax.ylim = (0, env.autoYlim.2)
      ∧ ∃ mn mx, minE d.index = .ok mn ∧ maxE d.index = .ok mx
          ∧ fig.ax.xlim = (mn, mx)) := by
  constructor
  · intro d o env fig v w x y hy1 hv hy2 hw hx1 hxne hx2 hyne h
    unfold draw_vertical_bar_chart at h
    by_cases hn : d.ncols = 0
    · simp [hn] at h
    · simp only [hn, if_false] at h
      rw [hx1, hx2, hy1, hy2] at h
      have ex : falsyNum (some x) = false := by
        simp [falsyNum, beq_eq_false_iff_ne.mpr hxne]
      have ey : falsyNum (some y) = false := by
        simp [falsyNum, beq_eq_false_iff_ne.mpr hyne]
      have ev : falsyNum (some v) = false := by
        simp [falsyNum, beq_eq_false_iff_ne.mpr hv]
      have ew : falsyNum (some w) = false := by
        simp [falsyNum, beq_eq_false_iff_ne.mpr hw]
      simp only [ex, ey, ev, ew, Bool.false_eq_true, if_false, Option.getD_some,
        pure_bind] at h
      rw [bindOk] at h
      obtain ⟨p, hp, h⟩ := h
      obtain ⟨bs, ts⟩ := p
      simp only [] at h
      rw [bindOk] at h
      obtain ⟨a', ha', h⟩ := h
      have := format_figure_lims env d _ _ fig (some v, some w) (some x, some y)
        rfl rfl h
      simpa using this
  · intro d o env fig hy hx h
    unfold draw_line_chart at h
    rw [bindOk] at h
    obtain ⟨lines, hlines, h⟩ := h
    have key : ∀ (f2 : Figure), format_figure env d f2 o = .ok fig →
        f2.ax.ylim.2 = env.autoYlim.2 →
        fig.ax.ylim = (0, env.autoYlim.2)
        ∧ ∃ mn mx, minE d.index = .ok mn ∧ maxE d.index = .ok mx
            ∧ fig.ax.xlim = (mn, mx) := by
      intro f2 hf2 hylim
      obtain ⟨h1, h2⟩ := format_figure_defaults env d f2 o fig hy hx hf2
      rw [hylim] at h1
      exact ⟨h1, h2⟩
    by_cases hl : o.label_lines
    · simp only [hl, if_true] at h
      rw [bindOk] at h
      obtain ⟨ts, hts, h⟩ := h
      simp only [pure_bind] at h
      exact key _ h (by simp [figInit, axesInit])
    · simp only [hl, Bool.false_eq_true, if_false, pure_bind] at h
      exact key _ h (by simp [figInit, axesInit])

/-- Witness for the amended C3: nonzero explicit limits are honoured on a
vertical bar chart, and a plain line chart defaults to a zero y floor and
index-range x limits. -/
theorem axis_limits_amended_witness :
    (∃ fig, draw_vertical_bar_chart dVbar
        { xmin := some (-1), xmax := some 3, ymin := some 1, ymax := some 20 }
        envVbar = .ok fig ∧ fig.ax.ylim = (1, 20) ∧ fig.ax.xlim = (-1, 3))
    ∧ (∃ fig, draw_line_chart dLine plainOpts env0 = .ok fig
        ∧ fig.ax.ylim = (0, 21/2) ∧ fig.ax.xlim = (2013, 2016)) := by
  constructor
  · obtain ⟨h1, h2⟩ := axis_limits_amended.1 dVbar
      { xmin := some (-1), xmax := some 3, ymin := some 1, ymax := some 20 }
      envVbar _ 1 20 (-1) 3 rfl (by norm_num) rfl (by norm_num) rfl (by norm_num)
      rfl (by norm_num) rfl
    exact ⟨_, rfl, h1, h2⟩
  · obtain ⟨h1, h2⟩ := axis_limits_amended.2 dLine plainOpts env0 _ rfl rfl rfl
    obtain ⟨mn, mx, hmn, hmx, hxl⟩ := h2
    refine ⟨_, rfl, ?_, ?_⟩
    · simpa [env0] using h1
    · have emn : mn = 2013 := by
        have : minE dLine.index = .ok 2013 := by rfl
        rw [this] at hmn
        exact (Except.ok.injEq _ _).mp hmn.symm
      have emx : mx = 2016 := by
        have : maxE dLine.index = .ok 2016 := by rfl
        rw [this] at hmx
        exact (Except.ok.injEq _ _).mp hmx.symm
      rw [emn, emx] at hxl
      exact hxl

/-! ## C5 — explicit ticks for short series -/

/-- `format_figure` never moves the x ticks. -/
theorem format_figure_xticks (env : PlotEnv) (d : DataFrame) (f : Figure)
    (o : Opts) (fig' : Figure) (h : format_figure env d f o = .ok fig') :
    fig'.ax.xticks = f.ax.xticks
    ∧ fig'.ax.xticksUserSet = f.ax.xticksUserSet := by
  obtain ⟨o', a3, hk, hr, hfig⟩ := format_figure_ok env d f o fig' h
  obtain ⟨hxt, hxu, -⟩ := relabelY_proj _ _ _ hr
  subst hfig
  constructor
  · show a3.xticks = _
    rw [hxt]
    simp
  · show a3.xticksUserSet = _
    rw [hxu]
    simp

theorem fix_xticks_char (d : DataFrame) (a : Axes) :
    (fix_xticks_for_short_series d a).xticks =
      (if d.index.length < 6 then d.index else a.xticks)
    ∧ (fix_xticks_for_short_series d a).xticksUserSet =
      (if d.index.length < 6 then true else a.xticksUserSet) := by
  unfold fix_xticks_for_short_series setXticks
  split <;> simp_all

/-- **C5 counterexample.**  The scatter drawer never calls
`fix_xticks_for_short_series`: with 4 index points the x ticks stay at
the library's automatic placement instead of the index values. -/
theorem scatter_no_short_series_ticks :
    (draw_scatter_plot dLine plainOpts env0).map
      (fun f => (f.ax.xticksUserSet, f.ax.xticks)) = .ok (false, env0.autoXticks)
    ∧ env0.autoXticks ≠ dLine.index := by
  refine ⟨by rfl, ?_⟩
  norm_num [env0, dLine]

/-- **C5 as amended.**  The line and stacked-area drawers force an
explicit tick at each index value when the series has fewer than 6
points, and leave placement to auto-spacing with 6 or more; the scatter
drawer never forces ticks, whatever the length. -/
theorem short_series_ticks_amended :
    (∀ (d : DataFrame) (o : Opts) (env : PlotEnv) (fig : Figure),
      d.index.length < 6 → draw_line_chart d o env = .ok fig →
      fig.ax.xticks = d.index ∧ fig.ax.xticksUserSet = true)
    ∧ (∀ (d : DataFrame) (o : Opts) (env : PlotEnv) (fig : Figure),
      d.index.length < 6 → draw_filled_line_chart d o env = .ok fig →
      fig.ax.xticks = d.index ∧ fig.ax.xticksUserSet = true)
    ∧ (∀ (d : DataFrame) (o : Opts) (env : PlotEnv) (fig : Figure),
      6 ≤ d.index.length → draw_line_chart d o env = .ok fig →
      fig.ax.xticks = env.autoXticks ∧ fig.ax.xticksUserSet = false)
    ∧ (∀ (d : DataFrame) (o : Opts) (env : PlotEnv) (fig : Figure),
      6 ≤ d.index.length → draw_filled_line_chart d o env = .ok fig →
      fig.ax.xticks = env.autoXticks ∧ fig.ax.xticksUserSet = false)
    ∧ (∀ (d : DataFrame) (o : Opts) (env : PlotEnv) (fig : Figure),
      draw_scatter_plot d o env = .ok fig →
      fig.ax.xticks = env.autoXticks ∧ fig.ax.xticksUserSet = false) := by
  have lineCase : ∀ (d : DataFrame) (o : Opts) (env : PlotEnv) (fig : Figure),
      draw_line_chart d o env = .ok fig →
      fig.ax.xticks = (if d.index.length < 6 then d.index else env.autoXticks)
      ∧ fig.ax.xticksUserSet = (if d.index.length < 6 then true else false) := by
    intro d o env fig h
    unfold draw_line_chart at h
    rw [bindOk] at h
    obtain ⟨lines, -, h⟩ := h
    have key : ∀ (a1 : Axes), a1.xticks = env.autoXticks →
        a1.xticksUserSet = false →
        format_figure env d { figInit env with ax := fix_xticks_for_short_series d a1 } o
          = .ok fig →
        fig.ax.xticks = (if d.index.length < 6 then d.index else env.autoXticks)
        ∧ fig.ax.xticksUserSet = (if d.index.length < 6 then true else false) := by
      intro a1 e1 e2 hf
      obtain ⟨p1, p2⟩ := format_figure_xticks env d _ o fig hf
      obtain ⟨q1, q2⟩ := fix_xticks_char d a1
      rw [p1, q1, p2, q2, e1, e2]
      by_cases h6 : d.index.length < 6 <;> simp [h6]
    by_cases hl : o.label_lines
    · simp only [hl, if_true] at h
      rw [bindOk] at h
      obtain ⟨ts, -, h⟩ := h
      exact key _ (by simp [figInit, axesInit]) (by simp [figInit, axesInit]) h
    · simp only [hl, Bool.false_eq_true, if_false, pure_bind] at h
      exact key _ (by simp [figInit, axesInit]) (by simp [figInit, axesInit]) h
  have areaCase : ∀ (d : DataFrame) (o : Opts) (env : PlotEnv) (fig : Figure),
      draw_filled_line_chart d o env = .ok fig →
      fig.ax.xticks = (if d.index.length < 6 then d.index else env.autoXticks)
      ∧ fig.ax.xticksUserSet = (if d.index.length < 6 then true else false) := by
    intro d o env fig h
    unfold draw_filled_line_chart at h
    split at h
    · exact absurd h (by simp)
    set A := fix_xticks_for_short_series d
      { (figInit env).ax with areas := d.cols.map (fun c => (d.index, c.2)) } with hA
    obtain ⟨q1, q2⟩ := fix_xticks_char d
      { (figInit env).ax with areas := d.cols.map (fun c => (d.index, c.2)) }
    rw [← hA] at q1 q2
    have e1 : A.xticks = (if d.index.length < 6 then d.index else env.autoXticks) := by
      rw [q1]
      by_cases h6 : d.index.length < 6 <;> simp [h6, figInit, axesInit]
    have e2 : A.xticksUserSet = (if d.index.length < 6 then true else false) := by
      rw [q2]
      by_cases h6 : d.index.length < 6 <;> simp [h6, figInit, axesInit]
    by_cases hla : o.label_area
    · simp only [hla, if_true] at h
      rcases hx : xsRow d ((A.xlim.1 + A.xlim.2) / 2) with _ | row
      · rw [hx] at h
        simp only [] at h
        exact Except.noConfusion h
      · rw [hx] at h
        simp only [pure_bind] at h
        obtain ⟨p1, p2⟩ := format_figure_xticks env d _ o fig h
        rw [p1, p2]
        exact ⟨e1, e2⟩
    · simp only [hla, Bool.false_eq_true, if_false, pure_bind] at h
      obtain ⟨p1, p2⟩ := format_figure_xticks env d _ o fig h
      rw [p1, p2]
      exact ⟨e1, e2⟩
  refine ⟨?_, ?_, ?_, ?_, ?_⟩
  · intro d o env fig h6 h
    have := lineCase d o env fig h
    simpa [h6] using this
  · intro d o env fig h6 h
    have := areaCase d o env fig h
    simpa [h6] using this
  · intro d o env fig h6 h
    have := lineCase d o env fig h
    simpa [Nat.not_lt.mpr h6] using this
  · intro d o env fig h6 h
    have := areaCase d o env fig h
    simpa [Nat.not_lt.mpr h6] using this
  · intro d o env fig h
    unfold draw_scatter_plot at h
    obtain ⟨p1, p2⟩ := format_figure_xticks env d _ _ fig h
    rw [p1, p2]
    by_cases hc : 1 < d.cols.length <;> simp [hc, figInit, axesInit]

/-- Witness for the amended C5: a 4-point line chart gets explicit index
ticks; a 6-point line chart and a 4-point scatter keep auto ticks. -/
theorem short_series_ticks_amended_witness :
    (∃ fig, draw_line_chart dLine plainOpts env0 = .ok fig
      ∧ fig.ax.xticks = dLine.index ∧ fig.ax.xticksUserSet = true)
    ∧ (∃ fig, draw_line_chart dLine6 plainOpts env0 = .ok fig
      ∧ fig.ax.xticks = env0.autoXticks ∧ fig.ax.xticksUserSet = false)
    ∧ (∃ fig, draw_scatter_plot dLine plainOpts env0 = .ok fig
      ∧ fig.ax.xticks = env0.autoXticks ∧ fig.ax.xticksUserSet = false) := by
  refine ⟨⟨_, rfl, ?_⟩, ⟨_, rfl, ?_⟩, ⟨_, rfl, ?_⟩⟩
  · exact short_series_ticks_amended.1 dLine plainOpts env0 _ (by norm_num [dLine]) rfl
  · exact short_series_ticks_amended.2.2.1 dLine6 plainOpts env0 _ (by norm_num [dLine6]) rfl
  · exact short_series_ticks_amended.2.2.2.2 dLine plainOpts env0 _ rfl

/-! ## C6 — stacked bar order and bottoms -/

theorem scanl_ne_nil (cols : List (List ℚ)) (z : List ℚ) :
    cols.scanl zipAdd z ≠ [] := by
  cases cols <;> simp [List.scanl]

/-- The initial segment of a `scanl` run lists the fold of every strict
initial segment of the input. -/
theorem scanl_dropLast (cols : List (List ℚ)) (z : List ℚ) :
    (cols.scanl zipAdd z).dropLast
      = (List.range cols.length).map (fun j => (cols.take j).foldl zipAdd z) := by
  induction cols generalizing z with
  | nil => simp
  | cons c cs ih =>
    rw [List.scanl_cons, List.singleton_append,
      List.dropLast_cons_of_ne_nil (scanl_ne_nil cs (zipAdd z c)),
      ih (zipAdd z c)]
    rw [List.length_cons, List.range_succ_eq_map]
    simp [List.map_map, Function.comp]

/-- `data.cumsum(axis=1).shift(1, axis=1).fillna(0)` column `j` is the
pointwise sum of the values of columns `0..j-1` (zero for `j = 0`). -/
theorem stackBottoms_eq (d : DataFrame) :
    stackBottoms d = (List.range d.cols.length).map
      (fun j => ((d.cols.map Prod.snd).take j).foldl zipAdd
        (List.replicate d.index.length 0)) := by
  unfold stackBottoms cumsumCols
  rcases hc : d.cols.map Prod.snd with _ | ⟨c, cs⟩
  · have : d.cols.length = 0 := by
      have := congrArg List.length hc
      simpa using this
    simp [shiftFill0, this, List.scanl]
  · have hlen : d.cols.length = cs.length + 1 := by
      have := congrArg List.length hc
      simpa using this
    rw [List.scanl_cons, List.singleton_append, List.drop_one, List.tail_cons]
    unfold shiftFill0
    rcases hs : cs.scanl zipAdd (zipAdd (List.replicate d.index.length 0) c) with _ | ⟨s, ss⟩
    · exact absurd hs (scanl_ne_nil cs _)
    · show List.replicate d.index.length 0 :: (s :: ss).dropLast = _
      rw [← hs, scanl_dropLast, hlen, List.range_succ_eq_map]
      simp [List.map_map, Function.comp, List.take_succ_cons]

/-- `format_figure` never touches the plotted bars. -/
theorem format_figure_bars (env : PlotEnv) (d : DataFrame) (f : Figure)
    (o : Opts) (fig' : Figure) (h : format_figure env d f o = .ok fig') :
    fig'.ax.bars = f.ax.bars := by
  obtain ⟨o', a3, hk, hr, hfig⟩ := format_figure_ok env d f o fig' h
  obtain ⟨-, -, -, hb, -⟩ := relabelY_proj _ _ _ hr
  subst hfig
  show a3.bars = _
  rw [hb]
  simp

/-- **C6 counterexample.**  `draw_horizontal_stacked_bar` iterates
`for column in data:` — forward column order — so its bars are not drawn
in reverse-column-order as the claim states for both stacked kinds. -/
theorem stacked_hbar_forward_order :
    (draw_horizontal_stacked_bar dStack plainOpts env0).map
      (fun f => f.ax.bars.map (fun b => b.label)) = .ok [some "a", some "b"]
    ∧ ([some "a", some "b"] : List (Option String)) ≠
        (dStack.cols.map (fun c => some c.1)).reverse := by
  exact ⟨by rfl, by decide⟩

/-- **C6 as amended.**  For both stacked kinds every column's bar starts
at the pointwise sum of all preceding columns' values (the first column's
bottom is zero), but only `stacked_vbar` draws the columns in
reverse-column-order; `stacked_hbar` draws them in forward order. -/
theorem stacked_bar_bottoms_amended :
    (∀ (d : DataFrame) (o : Opts) (env : PlotEnv) (fig : Figure),
      draw_vertical_stacked_bar d o env = .ok fig →
      fig.ax.bars = ((d.cols.zip ((List.range d.cols.length).map
          (fun j => ((d.cols.map Prod.snd).take j).foldl zipAdd
            (List.replicate d.index.length 0)))).reverse).map
        (fun cb => { pos := barPositions d, vals := cb.1.2, start := cb.2,
                     thickness := 66/100, horizontal := false,
                     label := some cb.1.1 }))
    ∧ (∀ (d : DataFrame) (o : Opts) (env : PlotEnv) (fig : Figure),
      draw_horizontal_stacked_bar d o env = .ok fig →
      fig.ax.bars = (d.cols.zip ((List.range d.cols.length).map
          (fun j => ((d.cols.map Prod.snd).take j).foldl zipAdd
            (List.replicate d.index.length 0)))).map
        (fun cb => { pos := barPositions d, vals := cb.1.2, start := cb.2,
                     thickness := 66/100, horizontal := true,
                     label := some cb.1.1 })) := by
  constructor
  · intro d o env fig h
    unfold draw_vertical_stacked_bar at h
    have finish : ∀ (A a' : Axes) (o' : Opts),
        A.bars = stackedVbarObjs d (barPositions d) (66/100) →
        fix_xaxis_vertical_bar d A = .ok a' →
        format_figure env d { figInit env with ax := a' } o' = .ok fig →
        fig.ax.bars = ((d.cols.zip ((List.range d.cols.length).map
            (fun j => ((d.cols.map Prod.snd).take j).foldl zipAdd
              (List.replicate d.index.length 0)))).reverse).map
          (fun cb => { pos := barPositions d, vals := cb.1.2, start := cb.2,
                       thickness := 66/100, horizontal := false,
                       label := some cb.1.1 }) := by
      intro A a' o' hA ha' hf
      have hb := format_figure_bars _ _ _ _ _ hf
      obtain ⟨-, -, hbars, -⟩ := fix_xaxis_proj _ _ _ ha'
      rw [hb, hbars, hA]
      unfold stackedVbarObjs
      rw [stackBottoms_eq]
    by_cases f1 : falsyNum o.xmin
    all_goals by_cases f2 : falsyNum o.xmax
    all_goals simp only [f1, f2, if_true, Bool.false_eq_true, if_false,
      pure_bind] at h
    all_goals repeat
      obtain ⟨_, h⟩ := bindOkRight (m := minE (barPositions d)) h
    all_goals repeat
      obtain ⟨_, h⟩ := bindOkRight (m := maxE (barPositions d)) h
    all_goals obtain ⟨a', ha', h⟩ := bindOk.mp h
    all_goals refine finish _ a' _ ?_ ha' h
    all_goals rfl
  · intro d o env fig h
    unfold draw_horizontal_stacked_bar at h
    have finish : ∀ (A : Axes) (o' : Opts),
        A.bars = stackedHbarObjs d (barPositions d) (66/100) →
        format_figure env d { figInit env with ax := A } o' = .ok fig →
        fig.ax.bars = (d.cols.zip ((List.range d.cols.length).map
            (fun j => ((d.cols.map Prod.snd).take j).foldl zipAdd
              (List.replicate d.index.length 0)))).map
          (fun cb => { pos := barPositions d, vals := cb.1.2, start := cb.2,
                       thickness := 66/100, horizontal := true,
                       label := some cb.1.1 }) := by
      intro A o' hA hf
      have hb := format_figure_bars _ _ _ _ _ hf
      rw [hb, hA]
      unfold stackedHbarObjs
      rw [stackBottoms_eq]
    by_cases f1 : falsyNum o.ymin
    all_goals by_cases f2 : falsyNum o.ymax
    all_goals by_cases f3 : o.xlabel = none
    all_goals simp only [f1, f2, f3, if_true, Bool.false_eq_true, if_false,
      pure_bind, bind_assoc] at h
    all_goals repeat
      obtain ⟨_, h⟩ := bindOkRight (m := minE (barPositions d)) h
    all_goals repeat
      obtain ⟨_, h⟩ := bindOkRight (m := maxE (barPositions d)) h
    all_goals repeat
      obtain ⟨_, h⟩ := bindOkRight (m := headE d.cols) h
    all_goals refine finish _ _ ?_ h
    all_goals rfl

/-- Witness for the amended C6 on a concrete two-column table. -/
theorem stacked_bar_bottoms_amended_witness :
    (∃ fig, draw_vertical_stacked_bar dStack plainOpts env0 = .ok fig
      ∧ fig.ax.bars.map (fun b => (b.label, b.start)) =
          [(some "b", [1, 2]), (some "a", [0, 0])])
    ∧ (∃ fig, draw_horizontal_stacked_bar dStack plainOpts env0 = .ok fig
      ∧ fig.ax.bars.map (fun b => (b.label, b.start)) =
          [(some "a", [0, 0]), (some "b", [1, 2])]) := by
  constructor
  · rcases hE : draw_vertical_stacked_bar dStack plainOpts env0 with e | figv
    · have hIsOk : isOkE (draw_vertical_stacked_bar dStack plainOpts env0) = true := by
        with_unfolding_all decide
      rw [hE] at hIsOk
      exact absurd hIsOk (by simp [isOkE])
    · have hv := stacked_bar_bottoms_amended.1 dStack plainOpts env0 figv hE
      exact ⟨figv, rfl, by rw [hv]; with_unfolding_all decide⟩
  · rcases hE : draw_horizontal_stacked_bar dStack plainOpts env0 with e | figv
    · have hIsOk : isOkE (draw_horizontal_stacked_bar dStack plainOpts env0) = true := by
        with_unfolding_all decide
      rw [hE] at hIsOk
      exact absurd hIsOk (by simp [isOkE])
    · have hh := stacked_bar_bottoms_amended.2 dStack plainOpts env0 figv hE
      exact ⟨figv, rfl, by rw [hh]; with_unfolding_all decide⟩

/-! ## C7 — bar value labels: font size and percent formatting -/

theorem zip_map_snd {α β γ : Type} (f : β → γ) :
    ∀ (xs : List α) (ys : List β), ys.length = xs.length →
      (xs.zip ys).map (fun p => f p.2) = ys.map f := by
  intro xs
  induction xs with
  | nil =>
    intro ys hl
    cases ys with
    | nil => rfl
    | cons y ys => simp at hl
  | cons x xs ih =>
    intro ys hl
    cases ys with
    | nil => simp at hl
    | cons y ys =>
      simp only [List.zip_cons_cons, List.map_cons]
      rw [ih ys (by simpa using hl)]

@[simp] theorem barPositions_length (d : DataFrame) :
    (barPositions d).length = d.index.length := by
  unfold barPositions
  rw [List.length_map, List.length_range]

/-- `format_figure` adds no axes text annotations. -/
theorem format_figure_texts (env : PlotEnv) (d : DataFrame) (f : Figure)
    (o : Opts) (fig' : Figure) (h : format_figure env d f o = .ok fig') :
    fig'.ax.texts = f.ax.texts := by
  obtain ⟨o', a3, hk, hr, hfig⟩ := format_figure_ok env d f o fig' h
  obtain ⟨-, -, -, -, ht, -⟩ := relabelY_proj _ _ _ hr
  subst hfig
  show a3.texts = _
  rw [ht]
  simp

/-- What the `draw_vertical_bar_chart` series loop writes: one
`'{:,.0f}'` label per bar, font size `18 - 3 * ncols`. -/
theorem vbarLoop_spec (color : List Int) (colors : List String) (bars : List ℚ)
    (width : ℚ) (ncols : Nat) :
    ∀ (cols : List (String × List ℚ)) (i : Nat) (bs : List BarObj)
      (ts : List TextObj),
      (∀ c ∈ cols, c.2.length = bars.length) →
      vbarLoop color colors bars width ncols cols i = .ok (bs, ts) →
      ts.map (fun t => (t.text, t.size)) =
        cols.flatMap (fun c => c.2.map (fun k =>
          (fmtComma0 k, some (TextSize.pt (18 - (ncols : ℚ) * 3))))) := by
  intro cols
  induction cols with
  | nil =>
    intro i bs ts _ h
    unfold vbarLoop at h
    cases h
    rfl
  | cons c cs ih =>
    intro i bs ts halign h
    unfold vbarLoop at h
    obtain ⟨ci, hci, h⟩ := bindOk.mp h
    obtain ⟨cl, hcl, h⟩ := bindOk.mp h
    obtain ⟨m, hm, h⟩ := bindOk.mp h
    obtain ⟨⟨bs', ts'⟩, hrec, h⟩ := bindOk.mp h
    cases h
    rw [List.map_append, List.flatMap_cons,
      ih (i + 1) bs' ts' (fun x hx => halign x (List.mem_cons_of_mem c hx)) hrec]
    rw [List.map_map]
    congr 1
    exact zip_map_snd
      (fun k => (fmtComma0 k, some (TextSize.pt (18 - (ncols : ℚ) * 3))))
      bars c.2 (halign c (List.mem_cons_self c cs))

/-- What the `draw_horizontal_bar_chart` series loop writes: percent
labels when the series maximum is below 1, `'{:,.0f}'` otherwise. -/
theorem hbarLoop_spec (color : List Int) (colors : List String) (bars : List ℚ)
    (height : ℚ) (ncols : Nat) :
    ∀ (cols : List (String × List ℚ)) (i : Nat) (bs : List BarObj)
      (ts : List TextObj),
      (∀ c ∈ cols, c.2.length = bars.length) →
      hbarLoop color colors bars height ncols cols i = .ok (bs, ts) →
      ts.map (fun t => (t.text, t.size)) =
        cols.flatMap (fun c => c.2.map (fun k =>
          ((if listMaxD c.2 < 1 then fmtPct2 k else fmtComma0 k),
           some (TextSize.pt (18 - (ncols : ℚ) * 3))))) := by
  intro cols
  induction cols with
  | nil =>
    intro i bs ts _ h
    unfold hbarLoop at h
    cases h
    rfl
  | cons c cs ih =>
    intro i bs ts halign h
    unfold hbarLoop at h
    obtain ⟨ci, hci, h⟩ := bindOk.mp h
    obtain ⟨cl, hcl, h⟩ := bindOk.mp h
    obtain ⟨m, hm, h⟩ := bindOk.mp h
    obtain ⟨⟨bs', ts'⟩, hrec, h⟩ := bindOk.mp h
    cases h
    have hm' : m = listMaxD c.2 := by
      rcases hc2 : c.2 with _ | ⟨v, vs⟩
      · rw [hc2] at hm
        exact Except.noConfusion hm
      · rw [hc2] at hm
        rw [show maxE (v :: vs) = .ok (listMaxD (v :: vs)) from rfl] at hm
        cases hm
        rfl
    rw [hm'] at *
    rw [List.map_append, List.flatMap_cons,
      ih (i + 1) bs' ts' (fun x hx => halign x (List.mem_cons_of_mem c hx)) hrec]
    rw [List.map_map]
    congr 1
    exact zip_map_snd
      (fun k => ((if listMaxD c.2 < 1 then fmtPct2 k else fmtComma0 k),
        some (TextSize.pt (18 - (ncols : ℚ) * 3))))
      bars c.2 (halign c (List.mem_cons_self c cs))

/-- **C7 counterexample.**  A vertical bar chart whose series maximum is
`1/2 < 1` still labels the bar `'{:,.0f}'.format(0.5) = "0"`, not the
percentage `"50.00%"` the claim requires (only the horizontal drawer has
the percent branch). -/
theorem vbar_label_not_percent :
    (draw_vertical_bar_chart dFrac plainOpts env0).map
      (fun f => f.ax.texts.map (fun t => t.text)) = .ok ["0"]
    ∧ fmtPct2 (1/2) = "50.00%"
    ∧ ("0" : String) ≠ "50.00%" := by
  refine ⟨by with_unfolding_all rfl, by with_unfolding_all rfl, by decide⟩

/-- **C7 as amended.**  Both bar drawers label every bar with font size
`18 - 3 * column_count`; the horizontal drawer formats a series' labels
as two-decimal percentages exactly when that series' maximum is below 1
and as thousands-separated integers otherwise, while the vertical drawer
always uses the thousands-separated integer format. -/
theorem bar_labels_amended :
    (∀ (d : DataFrame) (o : Opts) (env : PlotEnv) (fig : Figure),
      (∀ c ∈ d.cols, c.2.length = d.index.length) →
      draw_vertical_bar_chart d o env = .ok fig →
      fig.ax.texts.map (fun t => (t.text, t.size)) =
        d.cols.flatMap (fun c => c.2.map (fun k =>
          (fmtComma0 k, some (TextSize.pt (18 - (d.ncols : ℚ) * 3))))))
    ∧ (∀ (d : DataFrame) (o : Opts) (env : PlotEnv) (fig : Figure),
      (∀ c ∈ d.cols, c.2.length = d.index.length) →
      draw_horizontal_bar_chart d o env = .ok fig →
      fig.ax.texts.map (fun t => (t.text, t.size)) =
        d.cols.flatMap (fun c => c.2.map (fun k =>
          ((if listMaxD c.2 < 1 then fmtPct2 k else fmtComma0 k),
           some (TextSize.pt (18 - (d.ncols : ℚ) * 3)))))) := by
  constructor
  · intro d o env fig halign h
    unfold draw_vertical_bar_chart at h
    by_cases hn : d.ncols = 0
    · simp [hn] at h
    · simp only [hn, if_false] at h
      rw [bindOk] at h
      obtain ⟨p, hp, h⟩ := h
      obtain ⟨bs, ts⟩ := p
      have hts := vbarLoop_spec (expandColor d.ncols o.color) env.colors
        (barPositions d) ((2/3) / (d.ncols : ℚ)) d.ncols d.cols 0 bs ts
        (fun c hc => by rw [halign c hc, barPositions_length]) hp
      have finish : ∀ (A a' : Axes) (o' : Opts), A.texts = ts →
          fix_xaxis_vertical_bar d A = .ok a' →
          format_figure env d { figInit env with ax := a' } o' = .ok fig →
          fig.ax.texts.map (fun t => (t.text, t.size)) =
            d.cols.flatMap (fun c => c.2.map (fun k =>
              (fmtComma0 k, some (TextSize.pt (18 - (d.ncols : ℚ) * 3))))) := by
        intro A a' o' hA ha' hf
        have h1 := format_figure_texts _ _ _ _ _ hf
        obtain ⟨-, -, -, h2, -⟩ := fix_xaxis_proj _ _ _ ha'
        rw [h1, h2, hA]
        exact hts
      by_cases f1 : falsyNum o.xmin
      all_goals by_cases f2 : falsyNum o.xmax
      all_goals simp only [f1, f2, if_true, Bool.false_eq_true, if_false,
        pure_bind] at h
      all_goals repeat
        obtain ⟨_, h⟩ := bindOkRight (m := minE (barPositions d)) h
      all_goals repeat
        obtain ⟨_, h⟩ := bindOkRight (m := maxE (barPositions d)) h
      all_goals obtain ⟨a', ha', h⟩ := bindOk.mp h
      all_goals exact finish _ a' _ rfl ha' h
  · intro d o env fig halign h
    unfold draw_horizontal_bar_chart at h
    by_cases hn : d.ncols = 0
    · simp [hn] at h
    · simp only [hn, if_false] at h
      rw [bindOk] at h
      obtain ⟨p, hp, h⟩ := h
      obtain ⟨bs, ts⟩ := p
      have hts := hbarLoop_spec (expandColor d.ncols o.color) env.colors
        (barPositions d) ((2/3) / (d.ncols : ℚ)) d.ncols d.cols 0 bs ts
        (fun c hc => by rw [halign c hc, barPositions_length]) hp
      have finish : ∀ (A : Axes) (o' : Opts), A.texts = ts →
          format_figure env d { figInit env with ax := A } o' = .ok fig →
          fig.ax.texts.map (fun t => (t.text, t.size)) =
            d.cols.flatMap (fun c => c.2.map (fun k =>
              ((if listMaxD c.2 < 1 then fmtPct2 k else fmtComma0 k),
               some (TextSize.pt (18 - (d.ncols : ℚ) * 3))))) := by
        intro A o' hA hf
        have h1 := format_figure_texts _ _ _ _ _ hf
        rw [h1, hA]
        exact hts
      by_cases f1 : falsyNum o.ymin
      all_goals by_cases f2 : falsyNum o.ymax
      all_goals by_cases f3 : o.xlabel = none
      all_goals simp only [f1, f2, f3, if_true, Bool.false_eq_true, if_false,
        pure_bind, bind_assoc] at h
      all_goals repeat
        obtain ⟨_, h⟩ := bindOkRight (m := minE (barPositions d)) h
      all_goals repeat
        obtain ⟨_, h⟩ := bindOkRight (m := maxE (barPositions d)) h
      all_goals repeat
        obtain ⟨_, h⟩ := bindOkRight (m := headE d.cols) h
      all_goals refine finish _ _ ?_ h
      all_goals rfl

/-- Witness for the amended C7: a two-column vertical bar chart gets
integer labels at size 12; a below-one horizontal bar gets a percent
label at size 15. -/
theorem bar_labels_amended_witness :
    (∃ fig, draw_vertical_bar_chart dStack plainOpts env0 = .ok fig
      ∧ fig.ax.texts.map (fun t => (t.text, t.size)) =
          [("1", some (TextSize.pt 12)), ("2", some (TextSize.pt 12)),
           ("3", some (TextSize.pt 12)), ("4", some (TextSize.pt 12))])
    ∧ (∃ fig, draw_horizontal_bar_chart dFrac plainOpts env0 = .ok fig
      ∧ fig.ax.texts.map (fun t => (t.text, t.size)) =
          [("50.00%", some (TextSize.pt 15))]) := by
  constructor
  · rcases hE : draw_vertical_bar_chart dStack plainOpts env0 with e | figv
    · have hIsOk : isOkE (draw_vertical_bar_chart dStack plainOpts env0) = true := by
        with_unfolding_all decide
      rw [hE] at hIsOk
      exact absurd hIsOk (by simp [isOkE])
    · have hv := bar_labels_amended.1 dStack plainOpts env0 figv
        (by intro c hc; fin_cases hc <;> rfl) hE
      exact ⟨figv, rfl, by rw [hv]; with_unfolding_all decide⟩
  · rcases hE : draw_horizontal_bar_chart dFrac plainOpts env0 with e | figv
    · have hIsOk : isOkE (draw_horizontal_bar_chart dFrac plainOpts env0) = true := by
        with_unfolding_all decide
      rw [hE] at hIsOk
      exact absurd hIsOk (by simp [isOkE])
    · have hh := bar_labels_amended.2 dFrac plainOpts env0 figv
        (by intro c hc; fin_cases hc <;> rfl) hE
      exact ⟨figv, rfl, by rw [hh]; with_unfolding_all decide⟩

/-! ## C8 — hiding the zero y tick -/

theorem maxE_ok_inv (xs : List ℚ) (m : ℚ) (h : maxE xs = .ok m) :
    m = listMaxD xs ∧ xs ≠ [] := by
  unfold maxE at h
  cases xs with
  | nil => exact Except.noConfusion h
  | cons x l =>
    cases h
    exact ⟨rfl, by simp⟩

theorem applyYticksKw_none (a : Axes) (o : Opts) (h : o.yticks = none) :
    applyYticksKw a o = a := by
  unfold applyYticksKw
  rw [h]

/-- The y-relabel step of `format_figure`, characterised on an axes whose
current first y label is empty: the new labels come from `bigTickLabels`
when the tick maximum reaches a million and are plain `'{:,.0f}'`
renderings otherwise. -/
theorem relabelY_char (a a' : Axes) (lt : Bool) (rest : List String)
    (hl : a.ytlabels = "" :: rest) (h : relabelY a lt = .ok a') :
    a'.ytlabels =
      (if (1000000 : ℚ) ≤ listMaxD a.yticks
       then bigTickLabels a.yticks lt
       else a.yticks.map fmtComma0) := by
  unfold relabelY at h
  rw [bindOk] at h
  obtain ⟨first, hfirst, h⟩ := h
  rw [hl] at hfirst
  rw [show headE ("" :: rest) = .ok "" from rfl] at hfirst
  cases hfirst
  rw [if_pos (show ("" : String).length = 0 from rfl)] at h
  rw [bindOk] at h
  obtain ⟨m, hm, h⟩ := h
  obtain ⟨hmv, -⟩ := maxE_ok_inv _ _ hm
  cases h
  rw [hmv]
  rfl

/-- **C8 counterexample.**  With y ticks `0, 50, 100` and no explicit
labels, the zero tick is labelled `"0"`, not hidden: the blanking of the
zero tick happens only inside the million-abbreviation branch. -/
theorem zero_tick_not_hidden :
    (format_figure envTick50 dLine (figInit envTick50) plainOpts).map
      (fun f => f.ax.ytlabels) = .ok ["0", "50", "100"]
    ∧ ("0" : String) ≠ "" := by
  exact ⟨by with_unfolding_all rfl, by decide⟩

/-- **C8 as amended.**  When no explicit y tick labels exist:
if the maximum y tick is at least 1,000,000 the zero tick's label is
empty (hidden) and the others are K-abbreviated, but below 1,000,000
every tick — zero included — is labelled `'{:,.0f}'`, so the zero tick
shows `"0"`; when labels already exist the formatter leaves them all
untouched. -/
theorem zero_tick_amended :
    (∀ (env : PlotEnv) (d : DataFrame) (fig : Figure) (o : Opts)
       (fig' : Figure) (rest : List String),
      o.yticks = none → fig.ax.ytlabels = "" :: rest →
      format_figure env d fig o = .ok fig' →
      fig'.ax.ytlabels =
        (if (1000000 : ℚ) ≤ listMaxD fig.ax.yticks
         then bigTickLabels fig.ax.yticks o.label_thousands
         else fig.ax.yticks.map fmtComma0))
    ∧ (∀ (ticks : List ℚ) (k : Bool) (i : Nat),
      ticks.get? i = some 0 → (bigTickLabels ticks k).get? i = some "")
    ∧ fmtComma0 0 = "0"
    ∧ (∀ (env : PlotEnv) (d : DataFrame) (fig : Figure) (o : Opts)
       (fig' : Figure) (l : String) (rest : List String),
      o.yticks = none → fig.ax.ytlabels = l :: rest → l ≠ "" →
      format_figure env d fig o = .ok fig' →
      fig'.ax.ytlabels = fig.ax.ytlabels) := by
  refine ⟨?_, ?_, by with_unfolding_all rfl, ?_⟩
  · intro env d fig o fig' rest hyt hl h
    obtain ⟨o', a3, hk, hr, hfig⟩ := format_figure_ok env d fig o fig' h
    obtain ⟨hyk, -, -, -, -, -, -, hlt⟩ := (ffKwargs_spec d o o' hk).1
    have hy2 : applyYticksKw fig.ax o' = fig.ax :=
      applyYticksKw_none _ _ (hyk.trans hyt)
    rw [hy2] at hr
    have hl2 : (applyXtickLabelsKw d fig.ax o').ytlabels = "" :: rest := by
      rw [applyXtickLabelsKw_ytlabels]
      exact hl
    have := relabelY_char _ _ _ _ hl2 hr
    rw [applyXtickLabelsKw_yticks] at this
    subst hfig
    show a3.ytlabels = _
    rw [this, hlt]
  · intro ticks k i hi
    have hi' : ticks[i]? = some 0 := by simpa [List.get?_eq_getElem?] using hi
    unfold bigTickLabels
    by_cases ha : ticks.any (fun u => !(pyMod u 1000 == 0)) <;>
      by_cases hk : k <;>
      simp [ha, hk, List.get?_eq_getElem?, List.getElem?_map, hi']
  · intro env d fig o fig' l rest hyt hl hne h
    obtain ⟨o', a3, hk, hr, hfig⟩ := format_figure_ok env d fig o fig' h
    obtain ⟨hyk, -⟩ := (ffKwargs_spec d o o' hk).1
    have hy2 : applyYticksKw fig.ax o' = fig.ax :=
      applyYticksKw_none _ _ (hyk.trans hyt)
    rw [hy2] at hr
    unfold relabelY at hr
    rw [bindOk] at hr
    obtain ⟨first, hfirst, hr⟩ := hr
    rw [applyXtickLabelsKw_ytlabels, hl] at hfirst
    rw [show headE (l :: rest) = .ok l from rfl] at hfirst
    cases hfirst
    have hlen : ¬ l.length = 0 := by
      intro h0
      apply hne
      cases l with
      | mk data =>
        cases data with
        | nil => rfl
        | cons c cs => simp [String.length] at h0
    rw [if_neg hlen] at hr
    cases hr
    subst hfig
    show (applyXtickLabelsKw d fig.ax o').ytlabels = _
    rw [applyXtickLabelsKw_ytlabels]

/-- Witness for the amended C8: million-scale ticks hide the zero tick
behind an empty label and abbreviate the rest; preset labels survive. -/
theorem zero_tick_amended_witness :
    (∃ fig', format_figure envTickM dLine (figInit envTickM) plainOpts = .ok fig'
      ∧ fig'.ax.ytlabels = ["", "1,000K", "2,000K"])
    ∧ (bigTickLabels [(0 : ℚ), 1000000] true).get? 0 = some ""
    ∧ (∃ fig', format_figure env0 dLine
        { figInit env0 with ax := setYtickLabels (figInit env0).ax ["a", "b", "c"] }
        plainOpts = .ok fig'
      ∧ fig'.ax.ytlabels = ["a", "b", "c"]) := by
  refine ⟨?_, zero_tick_amended.2.1 [(0 : ℚ), 1000000] true 0 rfl, ?_⟩
  · rcases hE : format_figure envTickM dLine (figInit envTickM) plainOpts with e | figv
    · have hIsOk : isOkE (format_figure envTickM dLine (figInit envTickM) plainOpts)
          = true := by with_unfolding_all decide
      rw [hE] at hIsOk
      exact absurd hIsOk (by simp [isOkE])
    · have hv := zero_tick_amended.1 envTickM dLine (figInit envTickM) plainOpts
        figv (List.replicate 2 "") rfl (by rfl) hE
      exact ⟨figv, rfl, by rw [hv]; with_unfolding_all decide⟩
  · rcases hE : format_figure env0 dLine
        { figInit env0 with ax := setYtickLabels (figInit env0).ax ["a", "b", "c"] }
        plainOpts with e | figv
    · have hIsOk : isOkE (format_figure env0 dLine
          { figInit env0 with ax := setYtickLabels (figInit env0).ax ["a", "b", "c"] }
          plainOpts) = true := by with_unfolding_all decide
      rw [hE] at hIsOk
      exact absurd hIsOk (by simp [isOkE])
    · have hv := zero_tick_amended.2.2.2 env0 dLine
        { figInit env0 with ax := setYtickLabels (figInit env0).ax ["a", "b", "c"] }
        plainOpts figv "a" ["b", "c"] rfl rfl (by decide) hE
      exact ⟨figv, rfl, by rw [hv]; with_unfolding_all rfl⟩

/-! ## C4 — the year flag and the K abbreviation -/

theorem toDigitsCore_ne_nil (b fuel n : Nat) (ds : List Char) (h : ds ≠ []) :
    Nat.toDigitsCore b fuel n ds ≠ [] := by
  induction fuel generalizing n ds with
  | zero => exact h
  | succ f ih =>
    unfold Nat.toDigitsCore
    dsimp only
    split
    · exact fun hc => List.noConfusion hc
    · exact ih _ _ (fun hc => List.noConfusion hc)

theorem toString_nat_data_ne_nil (n : Nat) : (toString n).data ≠ [] := by
  have he : toString n = (Nat.toDigits 10 n).asString := rfl
  rw [he]
  show Nat.toDigits 10 n ≠ []
  unfold Nat.toDigits
  unfold Nat.toDigitsCore
  dsimp only
  split
  · exact fun hc => List.noConfusion hc
  · exact toDigitsCore_ne_nil _ _ _ _ (fun hc => List.noConfusion hc)

theorem commaChunks_ne_nil (l : List Char) (h : l ≠ []) : commaChunks l ≠ [] := by
  match l with
  | [] => exact absurd rfl h
  | [a] => exact fun hc => List.noConfusion hc
  | [a, b] => exact fun hc => List.noConfusion hc
  | [a, b, c] => exact fun hc => List.noConfusion hc
  | a :: b :: c :: d :: rest => exact fun hc => List.noConfusion hc

theorem commaNat_ne_empty (n : Nat) : commaNat n ≠ "" := by
  unfold commaNat
  intro h
  have hd : (commaChunks (toString n).data.reverse).reverse = [] :=
    congrArg String.data h
  rw [List.reverse_eq_nil_iff] at hd
  exact commaChunks_ne_nil _ (by
    intro h2
    rw [List.reverse_eq_nil_iff] at h2
    exact toString_nat_data_ne_nil n h2) hd

theorem str_append_ne_empty (a b : String) (h : a ≠ "") : a ++ b ≠ "" := by
  intro hc
  apply h
  have hd : a.data ++ b.data = [] := by
    rw [← String.data_append]
    exact congrArg String.data hc
  rcases List.append_eq_nil.mp hd with ⟨h1, -⟩
  cases a
  cases h1
  rfl

theorem fmtComma0_ne_empty (q : ℚ) : fmtComma0 q ≠ "" := by
  by_cases hq : q < 0
  · show (if q < 0 then "-" ++ commaNat (roundHalfEven q).natAbs
          else commaNat (roundHalfEven q).natAbs) ≠ ""
    rw [if_pos hq]
    exact str_append_ne_empty _ _
      (fun hc => List.noConfusion (congrArg String.data hc))
  · show (if q < 0 then "-" ++ commaNat (roundHalfEven q).natAbs
          else commaNat (roundHalfEven q).natAbs) ≠ ""
    rw [if_neg hq]
    exact commaNat_ne_empty _

theorem fmtCommaFloat_ne_empty (q : ℚ) : fmtCommaFloat q ≠ "" := by
  by_cases hq : q < 0
  · show (if q < 0 then "-" ++ (commaNat (⌊|q|⌋).natAbs ++ "." ++
          (if (|q| - ⌊|q|⌋ : ℚ) == 0 then "0" else fracDigits (|q| - ⌊|q|⌋) 30))
          else commaNat (⌊|q|⌋).natAbs ++ "." ++
          (if (|q| - ⌊|q|⌋ : ℚ) == 0 then "0" else fracDigits (|q| - ⌊|q|⌋) 30)) ≠ ""
    rw [if_pos hq]
    exact str_append_ne_empty _ _
      (fun hc => List.noConfusion (congrArg String.data hc))
  · show (if q < 0 then "-" ++ (commaNat (⌊|q|⌋).natAbs ++ "." ++
          (if (|q| - ⌊|q|⌋ : ℚ) == 0 then "0" else fracDigits (|q| - ⌊|q|⌋) 30))
          else commaNat (⌊|q|⌋).natAbs ++ "." ++
          (if (|q| - ⌊|q|⌋ : ℚ) == 0 then "0" else fracDigits (|q| - ⌊|q|⌋) 30)) ≠ ""
    rw [if_neg hq]
    exact str_append_ne_empty _ _ (str_append_ne_empty _ _ (commaNat_ne_empty _))

/-- **C4 counterexample.**  A y axis flagged as a year axis whose ticks
reach a million is still K-abbreviated by `set_ticks_nonbar`: the year
flag is only consulted in the sub-million branch, so the labels are
`["", "1,000K"]`, not the unmodified integer tick values. -/
theorem year_axis_still_abbreviated :
    (set_ticks_nonbar axesK { plainOpts with yyear := true }).map
      (fun a => a.ytlabels) = .ok ["", "1,000K"]
    ∧ ["", "1,000K"] ≠ axesK.yticks.map (fun i => toString (ratTrunc i)) := by
  exact ⟨by with_unfolding_all rfl, by with_unfolding_all decide⟩

/-- **C4 as amended.**  For an axis with no caller-supplied tick
locations or labels: a tick maximum of at least 1,000,000 triggers the
K abbreviation regardless of the year flag, with every nonzero tick
rendered as the value divided by 1,000 with thousands separators and a
`'K'` suffix; below 1,000,000 the year flag selects between plain
`int(i)` rendering and `'{:,.0f}'` formatting; and `set_ticks_nonbar`
installs these default labels on both axes. -/
theorem year_tick_labels_amended :
    (∀ (ticks : List ℚ) (m : ℚ) (year : Bool), (1000000 : ℚ) ≤ m →
      defaultTickLabelsNonbar ticks m year = bigTickLabels ticks true)
    ∧ (∀ (ticks : List ℚ) (v : ℚ) (i : Nat), ticks[i]? = some v → v ≠ 0 →
      (bigTickLabels ticks true)[i]? = some
        ((if ticks.any (fun u => !(pyMod u 1000 == 0))
          then fmtCommaFloat (v / 1000) else fmtComma0 (v / 1000)) ++ "K"))
    ∧ (∀ (ticks : List ℚ) (m : ℚ), ¬(1000000 : ℚ) ≤ m →
      defaultTickLabelsNonbar ticks m true =
        ticks.map (fun i => toString (ratTrunc i)))
    ∧ (∀ (ticks : List ℚ) (m : ℚ), ¬(1000000 : ℚ) ≤ m →
      defaultTickLabelsNonbar ticks m false = ticks.map fmtComma0)
    ∧ (∀ (a : Axes) (o : Opts) (a' : Axes) (r1 r2 : List String),
      o.xtick_loc = none → o.xticklabels = none →
      o.ytick_loc = none → o.yticklabels = none →
      a.xtlabels = "" :: r1 → a.ytlabels = "" :: r2 →
      set_ticks_nonbar a o = .ok a' →
      a'.xtlabels = defaultTickLabelsNonbar a.xticks (listMaxD a.xticks) o.xyear
      ∧ a'.ytlabels =
          defaultTickLabelsNonbar a.yticks (listMaxD a.yticks) o.yyear) := by
  refine ⟨?_, ?_, ?_, ?_, ?_⟩
  · intro ticks m year hm
    unfold defaultTickLabelsNonbar
    rw [if_pos hm]
  · intro ticks v i hi hv
    unfold bigTickLabels
    by_cases ha : ticks.any (fun u => !(pyMod u 1000 == 0)) <;>
      simp [ha, List.getElem?_map, hi, hv,
        fmtCommaFloat_ne_empty, fmtComma0_ne_empty]
  · intro ticks m hm
    unfold defaultTickLabelsNonbar
    rw [if_neg hm]
    simp
  · intro ticks m hm
    unfold defaultTickLabelsNonbar
    rw [if_neg hm]
    simp
  · intro a o a' r1 r2 h1 h2 h3 h4 hlx hly h
    unfold set_ticks_nonbar at h
    simp only [h1, h2, h3, h4, falsyList, if_true] at h
    rw [bindOk] at h
    obtain ⟨a2, hx, h⟩ := h
    rw [hlx] at hx
    rw [show headE ("" :: r1) = (Except.ok "" : Except String String) from rfl]
      at hx
    cases hx
    rw [if_pos (show ("" : String).length = 0 from rfl)] at h
    rw [bindOk] at h
    obtain ⟨m, hm, h⟩ := h
    obtain ⟨hmv, -⟩ := maxE_ok_inv _ _ hm
    subst hmv
    simp only [pure_bind] at h
    rw [bindOk] at h
    obtain ⟨first2, hfirst2, h⟩ := h
    rw [show (setXtickLabels a (defaultTickLabelsNonbar a.xticks
          (listMaxD a.xticks) o.xyear)).ytlabels = a.ytlabels from rfl,
        hly] at hfirst2
    rw [show headE ("" :: r2) = (Except.ok "" : Except String String) from rfl]
      at hfirst2
    cases hfirst2
    rw [if_pos (show ("" : String).length = 0 from rfl)] at h
    rw [bindOk] at h
    obtain ⟨m2, hm2, h⟩ := h
    obtain ⟨hmv2, -⟩ := maxE_ok_inv _ _ hm2
    subst hmv2
    cases h
    exact ⟨rfl, rfl⟩

/-- Witness for the amended C4: both branches of the default formatting
evaluated on concrete ticks, and the wiring through `set_ticks_nonbar`
on a year-flagged million-scale axis. -/
theorem year_tick_labels_amended_witness :
    defaultTickLabelsNonbar [(0 : ℚ), 1250000] 1250000 true =
      bigTickLabels [(0 : ℚ), 1250000] true
    ∧ (bigTickLabels [(0 : ℚ), 1250000] true)[1]? =
        some (fmtComma0 ((1250000 : ℚ) / 1000) ++ "K")
    ∧ defaultTickLabelsNonbar [(0 : ℚ), 50] 50 true =
        [(0 : ℚ), 50].map (fun i => toString (ratTrunc i))
    ∧ defaultTickLabelsNonbar [(0 : ℚ), 50] 50 false =
        [(0 : ℚ), 50].map fmtComma0
    ∧ (∃ a', set_ticks_nonbar axesK { plainOpts with yyear := true } = .ok a'
        ∧ a'.ytlabels =
            defaultTickLabelsNonbar axesK.yticks (listMaxD axesK.yticks) true) := by
  refine ⟨?_, ?_, ?_, ?_, ?_⟩
  · exact year_tick_labels_amended.1 _ _ true (by with_unfolding_all decide)
  · have h2 := year_tick_labels_amended.2.1 [(0 : ℚ), 1250000] 1250000 1 rfl
      (by with_unfolding_all decide)
    rw [h2]
    with_unfolding_all rfl
  · exact year_tick_labels_amended.2.2.1 _ _ (by with_unfolding_all decide)
  · exact year_tick_labels_amended.2.2.2.1 _ _ (by with_unfolding_all decide)
  · rcases hE : set_ticks_nonbar axesK { plainOpts with yyear := true }
        with e | av
    · have hIsOk : isOkE (set_ticks_nonbar axesK
          { plainOpts with yyear := true }) = true := by
        with_unfolding_all decide
      rw [hE] at hIsOk
      exact absurd hIsOk (by simp [isOkE])
    · have hv := year_tick_labels_amended.2.2.2.2 axesK
        { plainOpts with yyear := true } av [""] [""]
        rfl rfl rfl rfl rfl rfl hE
      exact ⟨av, rfl, hv.2⟩

/-! ## C9 — supplied tick labels, warning condition -/

/-- **C9 counterexample.**  Four supplied x tick labels on an axes with
five placed ticks: the label count differs from the number of ticks
actually placed, yet no advisory is emitted, because the source compares
the label count against `len(data.index)` (four here), not against the
ticks on the axes. -/
theorem mismatched_ticks_no_warning :
    (format_figure env0 dLine (figInit env0)
      { plainOpts with xticks := some ["a", "b", "c", "d"] }).map
        (fun f => (f.ax.xtlabels, f.ax.xticks.length, f.ax.warns))
      = .ok (["a", "b", "c", "d"], 5, [])
    ∧ (["a", "b", "c", "d"] : List String).length ≠ 5 := by
  exact ⟨by with_unfolding_all rfl, by decide⟩

/-- **C9 as amended.**  With explicit x tick labels the formatter applies
them verbatim and appends the advisory produced by `xtickWarns` to the
warnings — and that advisory is nonempty exactly when the label count
differs from `len(data.index)`, not from the number of ticks actually
placed on the axes. -/
theorem tick_label_warning_amended :
    (∀ (env : PlotEnv) (d : DataFrame) (fig : Figure) (o : Opts)
       (fig' : Figure) (ls : List String),
      o.xticks = some ls → format_figure env d fig o = .ok fig' →
      fig'.ax.xtlabels = ls
      ∧ fig'.ax.warns = fig.ax.warns ++ xtickWarns d ls)
    ∧ (∀ (d : DataFrame) (ls : List String),
      xtickWarns d ls ≠ [] ↔ ls.length ≠ d.index.length) := by
  constructor
  · intro env d fig o fig' ls hxt h
    obtain ⟨o', a3, hk, hr, hfig⟩ := format_figure_ok env d fig o fig' h
    obtain ⟨-, hxk, -, -, -, -, -, -⟩ := (ffKwargs_spec d o o' hk).1
    have hxls : o'.xticks = some ls := hxk.trans hxt
    have hsome := applyXtickLabelsKw_some d (applyYticksKw fig.ax o') o' ls hxls
    obtain ⟨-, -, hlab, -, -, hw, -, -, -⟩ := relabelY_proj _ _ _ hr
    subst hfig
    constructor
    · show (ffFinish env fig o' a3).ax.xtlabels = ls
      have he : (ffFinish env fig o' a3).ax.xtlabels = a3.xtlabels := rfl
      rw [he, hlab, hsome.2]
    · show (ffFinish env fig o' a3).ax.warns = fig.ax.warns ++ xtickWarns d ls
      have he : (ffFinish env fig o' a3).ax.warns = a3.warns := rfl
      rw [he, hw, hsome.1, applyYticksKw_warns]
  · intro d ls
    unfold xtickWarns
    by_cases h1 : ls.length < d.index.length
    · rw [if_pos h1]
      constructor
      · intro _; omega
      · intro _; exact fun hc => List.noConfusion hc
    · rw [if_neg h1]
      by_cases h2 : d.index.length < ls.length
      · rw [if_pos h2]
        constructor
        · intro _; omega
        · intro _; exact fun hc => List.noConfusion hc
      · rw [if_neg h2]
        constructor
        · intro hc; exact absurd rfl hc
        · intro hne; omega

/-- Witness for the amended C9: three labels against a four-point index
produce the too-few advisory, the labels are installed verbatim, and the
formatter still returns a figure. -/
theorem tick_label_warning_amended_witness :
    (∃ fig', format_figure env0 dLine (figInit env0)
        { plainOpts with xticks := some ["w", "x", "y"] } = .ok fig'
      ∧ fig'.ax.xtlabels = ["w", "x", "y"]
      ∧ fig'.ax.warns = [msgTooFewX])
    ∧ (xtickWarns dLine ["w", "x", "y"] ≠ [] ↔
        (["w", "x", "y"] : List String).length ≠ dLine.index.length) := by
  constructor
  · rcases hE : format_figure env0 dLine (figInit env0)
        { plainOpts with xticks := some ["w", "x", "y"] } with e | figv
    · have hIsOk : isOkE (format_figure env0 dLine (figInit env0)
          { plainOpts with xticks := some ["w", "x", "y"] }) = true := by
        with_unfolding_all decide
      rw [hE] at hIsOk
      exact absurd hIsOk (by simp [isOkE])
    · have hv := tick_label_warning_amended.1 env0 dLine (figInit env0)
        { plainOpts with xticks := some ["w", "x", "y"] } figv
        ["w", "x", "y"] rfl hE
      exact ⟨figv, rfl, hv.1, by rw [hv.2]; with_unfolding_all decide⟩
  · exact tick_label_warning_amended.2 dLine ["w", "x", "y"]

/-! ## C2 — `save_fig` -/

/-- **C2.**  The `save_fig` behaviour the spec describes — create the
parent directories, infer the encoding from the extension, write the
encoded image, return the resolved path — is implemented by neither
entry point.  The `__main__.py` `save_fig` raises `AttributeError` on
every input (the package exports no `create_image`), after creating the
ancestor directories but without writing any file; the package-level
`save_fig` of `__init__.py` raises `AttributeError` (the `graphics`
module defines no `draw_chart`) before touching the file system at all.
The final conjunct shows the failure is not vacuous: the figure itself
is drawable, `create_figure` succeeds on the same input. -/
theorem save_fig_never_writes :
    (∀ (outfile : PyPath) (d : DataFrame) (kind : String) (o : Opts)
       (env : PlotEnv) (fs : FS),
      (save_fig outfile d kind o env fs).2 =
        .error "AttributeError: module 'bluesteel.graphics' has no attribute 'create_image'"
      ∧ (save_fig outfile d kind o env fs).1.files = fs.files
      ∧ (∀ dl ∈ ancestorDirs outfile.dirs,
          dl ∈ (save_fig outfile d kind o env fs).1.dirs))
    ∧ (∀ (outfile : PyPath) (format : String) (d : DataFrame) (kind : String)
       (o : Opts) (env : PlotEnv) (fs : FS),
      init_save_fig outfile format d kind o env fs =
        .error "AttributeError: module 'bluesteel.graphics.graphics' has no attribute 'draw_chart'")
    ∧ isOkE (create_figure dLine "line" plainOpts env0) = true := by
  refine ⟨?_, fun _ _ _ _ _ _ _ => rfl, by with_unfolding_all decide⟩
  intro outfile d kind o env fs
  refine ⟨rfl, rfl, ?_⟩
  intro dl hd
  show dl ∈ (mkdirParents fs outfile).dirs
  unfold mkdirParents
  by_cases hm : dl ∈ fs.dirs
  · exact List.mem_append.mpr (Or.inl hm)
  · refine List.mem_append.mpr (Or.inr ?_)
    rw [List.mem_filter]
    refine ⟨hd, ?_⟩
    simp [hm]

/-- Witness for C2: saving a drawable line chart to `out/chart.png`
raises the `AttributeError` while the parent directory does get
created. -/
theorem save_fig_never_writes_witness :
    (save_fig ⟨["out"], "chart", "png"⟩ dLine "line" plainOpts env0
        ⟨[[]], []⟩).2 =
      .error "AttributeError: module 'bluesteel.graphics' has no attribute 'create_image'"
    ∧ ["out"] ∈ (save_fig ⟨["out"], "chart", "png"⟩ dLine "line" plainOpts env0
        ⟨[[]], []⟩).1.dirs := by
  exact ⟨(save_fig_never_writes.1 ⟨["out"], "chart", "png"⟩ dLine "line"
            plainOpts env0 ⟨[[]], []⟩).1,
         (save_fig_never_writes.1 ⟨["out"], "chart", "png"⟩ dLine "line"
            plainOpts env0 ⟨[[]], []⟩).2.2 ["out"]
           (by with_unfolding_all decide)⟩

end Bluesteel
